import Mathlib

/-!
Verification development for the EV-trip backend service (trip write path).

The definitions below are a shallow embedding of the TypeScript trip service
(src/app/trips/service.ts) together with the database schema declared in
prisma/migrations (unique keys, enum domains, SERIAL ids).  The persistent
state of the Prisma store is modelled as lists of rows plus the next value of
each SERIAL id sequence.  Each Prisma call is modelled by a pure function on
this state; operations that the Prisma client can reject (invalid enum value,
record-to-delete missing, relation dereference of a missing row) return an
error together with the state as committed so far, since outside an explicit
transaction every awaited Prisma call is committed individually.
-/

/-! ## Data model (prisma schema) -/

structure Manufacturer where
  id : Nat
  name : String
deriving Repr, DecidableEq

structure VehicleModel where
  id : Nat
  manufacturerId : Nat
  name : String
  bodyType : String
  segment : String
deriving Repr, DecidableEq

structure VehicleVariant where
  id : Nat
  modelId : Nat
  batteryKwh : Int
  rangeKm : Int
  chargingType : String
  priceEur : Int
deriving Repr, DecidableEq

structure Location where
  id : Nat
  city : String
  country : String
deriving Repr, DecidableEq

structure Trip where
  id : Nat
  tripDate : Int
  distanceKm : Int
  co2_g_per_km : Int
  grid_intensity_gco2_per_kwh : Int
  vehicleVariantId : Nat
  originId : Nat
  destinationId : Nat
deriving Repr, DecidableEq

/-- The Prisma-backed store: one list of rows per table, plus the next value of
each SERIAL id sequence (PostgreSQL SERIAL columns start at 1). -/
structure Store where
  manufacturers : List Manufacturer
  vehicleModels : List VehicleModel
  vehicleVariants : List VehicleVariant
  locations : List Location
  trips : List Trip
  nextManufacturerId : Nat
  nextModelId : Nat
  nextVariantId : Nat
  nextLocationId : Nat
  nextTripId : Nat
deriving Repr, DecidableEq

/-- Enum domain of the BodyType postgres enum. -/
def bodyTypeValues : List String :=
  ["COMPACT_SUV", "COUPE", "CROSSOVER", "HATCHBACK", "SEDAN", "SUV"]

/-- Enum domain of the Segment postgres enum. -/
def segmentValues : List String :=
  ["COMPACT", "LUXURY", "MID_SIZE", "PREMIUM"]

/-- Enum domain of the ChargingType postgres enum. -/
def chargingTypeValues : List String :=
  ["AC", "DC"]

/-! ## DTOs (src/types/dto.ts) -/

structure TripCreateDTO where
  trip_date : String
  manufacturer : String
  model : String
  body_type : String
  segment : String
  battery_kwh : Int
  range_km : Int
  charging_type : String
  price_eur : Int
  origin_city : String
  origin_country : String
  destination_city : String
  destination_country : String
  distance_km : Int
  co2_g_per_km : Int
  grid_intensity_gco2_per_kwh : Int
deriving Repr, DecidableEq

/-- Sparse update payload: every field optional.  A none value models an absent
JSON field (undefined). -/
structure TripUpdateDTO where
  trip_date : Option String := none
  manufacturer : Option String := none
  model : Option String := none
  body_type : Option String := none
  segment : Option String := none
  battery_kwh : Option Int := none
  range_km : Option Int := none
  charging_type : Option String := none
  price_eur : Option Int := none
  origin_city : Option String := none
  origin_country : Option String := none
  destination_city : Option String := none
  destination_country : Option String := none
  distance_km : Option Int := none
  co2_g_per_km : Option Int := none
  grid_intensity_gco2_per_kwh : Option Int := none
deriving Repr, DecidableEq

/-! ## JavaScript semantics helpers -/

/-- JavaScript truthiness of an optional string: undefined and the empty
string are falsy, every other string is truthy. -/
def isTruthyStr : Option String → Bool
  | none => false
  | some s => !(s == "")

/-- JavaScript truthiness of an optional number (used on ids): undefined and 0
are falsy. -/
def isTruthyNat : Option Nat → Bool
  | none => false
  | some n => !(n == 0)

/-! ## toEnum (service.ts line 41) -/

/-- Replace every maximal run of whitespace by a single underscore, as the
regex replace of a whitespace run does.  The boolean records whether the
previous character was part of a whitespace run. -/
def collapseWs : Bool → List Char → List Char
  | _, [] => []
  | prevWs, c :: rest =>
    if c.isWhitespace then
      if prevWs then collapseWs true rest
      else '_' :: collapseWs true rest
    else c :: collapseWs false rest

/-- Leading and trailing whitespace removed, as the JavaScript trim method
does (modelled on the character list). -/
def trimChars (cs : List Char) : List Char :=
  ((cs.dropWhile Char.isWhitespace).reverse.dropWhile Char.isWhitespace).reverse

/-- Normalization of free-text enum values: trim, uppercase, whitespace runs
and hyphens become underscores. -/
def toEnum (raw : String) : String :=
  let upper := (trimChars raw.toList).map Char.toUpper
  String.mk ((collapseWs false upper).map (fun c => if c == '-' then '_' else c))

/-! ## parseTripDate (service.ts lines 46-95)

Dates are modelled as milliseconds since the Unix epoch, which is exactly the
time value of a JavaScript Date. -/

/-- Numeric value of a decimal digit character. -/
def digitVal (c : Char) : Nat := c.toNat - 48

/-- Two-digit decimal number. -/
def num2 (a b : Char) : Int := Int.ofNat (10 * digitVal a + digitVal b)

/-- Four-digit decimal number. -/
def num4 (a b c d : Char) : Int :=
  Int.ofNat (1000 * digitVal a + 100 * digitVal b + 10 * digitVal c + digitVal d)

/-- All characters are decimal digits. -/
def allDigits (cs : List Char) : Bool := cs.all Char.isDigit

/-- Day number of a proleptic-Gregorian civil date, with day 0 = 1970-01-01
(the standard era-based algorithm, using floor division so that years before
1970 are handled correctly). -/
def daysFromCivil (y m d : Int) : Int :=
  let yAdj := if m ≤ 2 then y - 1 else y
  let era := yAdj.fdiv 400
  let yoe := yAdj - era * 400
  let mp := (m + 9).fmod 12
  let doy := (153 * mp + 2).fdiv 5 + d - 1
  let doe := yoe * 365 + yoe.fdiv 4 - yoe.fdiv 100 + doy
  era * 146097 + doe - 719468

/-- Time value of Date.UTC(year, month, day) in milliseconds.  Following the
ECMAScript MakeDay operation, out-of-range month and day components roll over
arithmetically instead of failing, and an integer year between 0 and 99 is
interpreted as 1900 + year. -/
def jsDateUTCMs (year month day : Int) : Int :=
  let yr := if 0 ≤ year ∧ year ≤ 99 then 1900 + year else year
  let ym := yr + month.fdiv 12
  let mn := month.fmod 12
  (daysFromCivil ym (mn + 1) 1 + (day - 1)) * 86400000

/-- Number of days of a month in the proleptic Gregorian calendar. -/
def daysInMonth (y m : Int) : Int :=
  if m == 2 then
    if (y.fmod 4 == 0 ∧ y.fmod 100 ≠ 0) ∨ y.fmod 400 == 0 then 29 else 28
  else if m == 4 ∨ m == 6 ∨ m == 9 ∨ m == 11 then 30 else 31

/-- Modelled from the ECMAScript Date Time String Format: the last-resort
new Date(string) call of parseTripDate, restricted to the fully explicit
shape YYYY-MM-DDTHH:MM:SSZ with in-range components.  The real JavaScript
fallback accepts further, partly implementation-defined, shapes; this model
under-approximates the set of accepted strings, so every string it accepts is
accepted by the code. -/
def jsDateParse (cs : List Char) : Option Int :=
  match cs with
  | [y1, y2, y3, y4, '-', m1, m2, '-', d1, d2, 'T', h1, h2, ':', n1, n2, ':', p1, p2, 'Z'] =>
    if allDigits [y1, y2, y3, y4, m1, m2, d1, d2, h1, h2, n1, n2, p1, p2] then
      let y := num4 y1 y2 y3 y4
      let mo := num2 m1 m2
      let d := num2 d1 d2
      let h := num2 h1 h2
      let mi := num2 n1 n2
      let se := num2 p1 p2
      if 1 ≤ mo ∧ mo ≤ 12 ∧ 1 ≤ d ∧ d ≤ daysInMonth y mo ∧ h ≤ 23 ∧ mi ≤ 59 ∧ se ≤ 59 then
        some (daysFromCivil y mo d * 86400000 + h * 3600000 + mi * 60000 + se * 1000)
      else none
    else none
  | _ => none

/-- Truncation of a time value to UTC midnight, as rebuilding the Date from
its getUTCFullYear, getUTCMonth and getUTCDate components does. -/
def truncToUTCDay (ms : Int) : Int := (ms.fdiv 86400000) * 86400000

/-- Last-resort branch of parseTripDate: new Date(s) followed by the
UTC-midnight truncation, or the thrown format error. -/
def lastResortParse (cs : List Char) : Except String Int :=
  match jsDateParse cs with
  | some ms => .ok (truncToUTCDay ms)
  | none => .error "Invalid trip_date format. Expected DD/MM/YYYY or YYYY-MM-DD."

/-- parseTripDate on a string input: trim, try the DD/MM/YYYY regex, then the
YYYY-MM-DD regex, then the last-resort general date parse; the result is
normalized to UTC midnight.  (The Date-instance branch of the source is
unreachable through the string-typed DTO and is not modelled.) -/
def parseTripDate (input : String) : Except String Int :=
  match trimChars input.toList with
  | [d1, d2, '/', m1, m2, '/', y1, y2, y3, y4] =>
    if allDigits [d1, d2, m1, m2, y1, y2, y3, y4] then
      .ok (jsDateUTCMs (num4 y1 y2 y3 y4) (num2 m1 m2 - 1) (num2 d1 d2))
    else lastResortParse [d1, d2, '/', m1, m2, '/', y1, y2, y3, y4]
  | [y1, y2, y3, y4, '-', m1, m2, '-', d1, d2] =>
    if allDigits [y1, y2, y3, y4, m1, m2, d1, d2] then
      .ok (jsDateUTCMs (num4 y1 y2 y3 y4) (num2 m1 m2 - 1) (num2 d1 d2))
    else lastResortParse [y1, y2, y3, y4, '-', m1, m2, '-', d1, d2]
  | cs => lastResortParse cs

/-! ## Prisma upsert / delete primitives

Each upsert mirrors one prisma.<table>.upsert call: find by the unique key
named in its where clause; if found apply the update payload, otherwise insert
the create payload under a fresh SERIAL id.  The Prisma client validates enum
arguments against the schema before issuing any query, so an invalid enum
string fails the call without touching the store. -/

/-- prisma.manufacturer.upsert with where name, empty update. -/
def upsertManufacturer (s : Store) (name : String) : Manufacturer × Store :=
  match s.manufacturers.find? (fun m => m.name == name) with
  | some m => (m, s)
  | none =>
    let m : Manufacturer := ⟨s.nextManufacturerId, name⟩
    (m, { s with
            manufacturers := s.manufacturers ++ [m],
            nextManufacturerId := s.nextManufacturerId + 1 })

/-- Unique key of VehicleModel: (manufacturerId, name). -/
def modelKeyMatch (manufacturerId : Nat) (name : String) (m : VehicleModel) : Bool :=
  m.manufacturerId == manufacturerId && m.name == name

/-- prisma.vehicleModel.upsert as issued on the create path: empty update, so
an existing row is returned unchanged; a new row is inserted with the given
bodyType and segment, which the schema enum domains must accept. -/
def upsertVehicleModelCreatePath (s : Store) (manufacturerId : Nat)
    (name bodyType segment : String) : Except String (VehicleModel × Store) :=
  if bodyTypeValues.contains bodyType && segmentValues.contains segment then
    match s.vehicleModels.find? (modelKeyMatch manufacturerId name) with
    | some m => .ok (m, s)
    | none =>
      let m : VehicleModel := ⟨s.nextModelId, manufacturerId, name, bodyType, segment⟩
      .ok (m, { s with
                  vehicleModels := s.vehicleModels ++ [m],
                  nextModelId := s.nextModelId + 1 })
  else .error "Invalid enum value for VehicleModel bodyType or segment"

/-- prisma.vehicleModel.upsert as issued on the update path: an existing row
has its bodyType and segment overwritten; a missing row is inserted. -/
def upsertVehicleModelUpdatePath (s : Store) (manufacturerId : Nat)
    (name bodyType segment : String) : Except String (VehicleModel × Store) :=
  if bodyTypeValues.contains bodyType && segmentValues.contains segment then
    match s.vehicleModels.find? (modelKeyMatch manufacturerId name) with
    | some m =>
      .ok ({ m with bodyType := bodyType, segment := segment },
           { s with
               vehicleModels := s.vehicleModels.map (fun x =>
                 if modelKeyMatch manufacturerId name x then
                   { x with bodyType := bodyType, segment := segment }
                 else x) })
    | none =>
      let m : VehicleModel := ⟨s.nextModelId, manufacturerId, name, bodyType, segment⟩
      .ok (m, { s with
                  vehicleModels := s.vehicleModels ++ [m],
                  nextModelId := s.nextModelId + 1 })
  else .error "Invalid enum value for VehicleModel bodyType or segment"

/-- Unique key of VehicleVariant: (modelId, batteryKwh, rangeKm,
chargingType); price is not part of the key. -/
def variantKeyMatch (modelId : Nat) (batteryKwh rangeKm : Int) (chargingType : String)
    (v : VehicleVariant) : Bool :=
  v.modelId == modelId && v.batteryKwh == batteryKwh && v.rangeKm == rangeKm &&
    v.chargingType == chargingType

/-- prisma.vehicleVariant.upsert (identical on create and update paths): an
existing row has its price overwritten with the incoming value; a missing row
is inserted. -/
def upsertVehicleVariant (s : Store) (modelId : Nat) (batteryKwh rangeKm : Int)
    (chargingType : String) (priceEur : Int) : Except String (VehicleVariant × Store) :=
  if chargingTypeValues.contains chargingType then
    match s.vehicleVariants.find? (variantKeyMatch modelId batteryKwh rangeKm chargingType) with
    | some v =>
      .ok ({ v with priceEur := priceEur },
           { s with
               vehicleVariants := s.vehicleVariants.map (fun x =>
                 if variantKeyMatch modelId batteryKwh rangeKm chargingType x then
                   { x with priceEur := priceEur }
                 else x) })
    | none =>
      let v : VehicleVariant := ⟨s.nextVariantId, modelId, batteryKwh, rangeKm, chargingType, priceEur⟩
      .ok (v, { s with
                  vehicleVariants := s.vehicleVariants ++ [v],
                  nextVariantId := s.nextVariantId + 1 })
  else .error "Invalid enum value for VehicleVariant chargingType"

/-- prisma.location.upsert with where (city, country), empty update. -/
def upsertLocation (s : Store) (city country : String) : Location × Store :=
  match s.locations.find? (fun l => l.city == city && l.country == country) with
  | some l => (l, s)
  | none =>
    let l : Location := ⟨s.nextLocationId, city, country⟩
    (l, { s with
            locations := s.locations ++ [l],
            nextLocationId := s.nextLocationId + 1 })

/-! ## createFromCsvRow (service.ts lines 136-236)

Every prisma call is a separate awaited query outside any transaction, so a
failing step leaves the effects of the preceding steps committed; the error
case therefore carries the store as of the failure. -/

/-- Identity check used by the create path: the findFirst where clause of
lines 212-220 (tripDate, vehicleVariantId, originId, destinationId,
distanceKm; the CO2 and grid-intensity fields are not part of the key). -/
def tripIdentityMatch (tripDate : Int) (variantId originId destinationId : Nat)
    (distanceKm : Int) (t : Trip) : Bool :=
  t.tripDate == tripDate && t.vehicleVariantId == variantId && t.originId == originId &&
    t.destinationId == destinationId && t.distanceKm == distanceKm

/-- POST /trips: normalize enums, parse the date, upsert the entity chain and
the two locations, then create the trip unless an identical row already
exists. -/
def createFromCsvRow (s0 : Store) (row : TripCreateDTO) :
    Except (String × Store) (Trip × Store) :=
  match parseTripDate row.trip_date with
  | .error e => .error (e, s0)
  | .ok tripDate =>
    match upsertManufacturer s0 row.manufacturer with
    | (manufacturer, s1) =>
      match upsertVehicleModelCreatePath s1 manufacturer.id row.model
          (toEnum row.body_type) (toEnum row.segment) with
      | .error e => .error (e, s1)
      | .ok (model, s2) =>
        match upsertVehicleVariant s2 model.id row.battery_kwh row.range_km
            (toEnum row.charging_type) row.price_eur with
        | .error e => .error (e, s2)
        | .ok (variant, s3) =>
          match upsertLocation s3 row.origin_city row.origin_country with
          | (origin, s4) =>
            match upsertLocation s4 row.destination_city row.destination_country with
            | (destination, s5) =>
              match s5.trips.find? (tripIdentityMatch tripDate variant.id origin.id
                  destination.id row.distance_km) with
              | some existing => .ok (existing, s5)
              | none =>
                .ok (⟨s5.nextTripId, tripDate, row.distance_km, row.co2_g_per_km,
                      row.grid_intensity_gco2_per_kwh, variant.id, origin.id, destination.id⟩,
                     { s5 with
                         trips := s5.trips ++ [⟨s5.nextTripId, tripDate, row.distance_km,
                           row.co2_g_per_km, row.grid_intensity_gco2_per_kwh, variant.id,
                           origin.id, destination.id⟩],
                         nextTripId := s5.nextTripId + 1 })

/-! ## updateTrip (service.ts lines 240-412) -/

/-- Condition of lines 259-267: the vehicle chain is recomputed when any
vehicle-related field is present, with JavaScript truthiness on the string
fields and a null check on the numeric fields. -/
def touchesVehicle (patch : TripUpdateDTO) : Bool :=
  isTruthyStr patch.manufacturer || isTruthyStr patch.model ||
    isTruthyStr patch.body_type || isTruthyStr patch.segment ||
    patch.battery_kwh.isSome || patch.range_km.isSome ||
    isTruthyStr patch.charging_type || patch.price_eur.isSome

/-- Body type chosen on the update path (line 278): the normalized patch value
when truthy, otherwise the current model value. -/
def chosenBodyType (patch : TripUpdateDTO) (curModel : VehicleModel) : String :=
  match patch.body_type with
  | some bt => if bt == "" then curModel.bodyType else toEnum bt
  | none => curModel.bodyType

/-- Segment chosen on the update path (line 281). -/
def chosenSegment (patch : TripUpdateDTO) (curModel : VehicleModel) : String :=
  match patch.segment with
  | some sg => if sg == "" then curModel.segment else toEnum sg
  | none => curModel.segment

/-- Charging type chosen on the update path (line 284). -/
def chosenChargingType (patch : TripUpdateDTO) (curVariant : VehicleVariant) : String :=
  match patch.charging_type with
  | some ct => if ct == "" then curVariant.chargingType else toEnum ct
  | none => curVariant.chargingType

/-- Vehicle-chain phase of updateTrip (lines 269-348): when triggered, merge
the patch with the current chain values and re-run the
manufacturer/model/variant resolution; the relation rows were loaded by the
findUnique include, and dereferencing a missing one fails.  Returns the
optional new variant id together with the evolved store. -/
def vehiclePhase (s : Store) (patch : TripUpdateDTO)
    (curVariant? : Option VehicleVariant) (curModel? : Option VehicleModel)
    (curManufacturer? : Option Manufacturer) :
    Except (String × Store) (Option Nat × Store) :=
  if touchesVehicle patch then
    match curVariant?, curModel?, curManufacturer? with
    | some curVariant, some curModel, some curManufacturer =>
      let manufacturerName := patch.manufacturer.getD curManufacturer.name
      let modelName := patch.model.getD curModel.name
      let batteryKwh := patch.battery_kwh.getD curVariant.batteryKwh
      let rangeKm := patch.range_km.getD curVariant.rangeKm
      let priceEur := patch.price_eur.getD curVariant.priceEur
      match upsertManufacturer s manufacturerName with
      | (manufacturer, s1) =>
        match upsertVehicleModelUpdatePath s1 manufacturer.id modelName
            (chosenBodyType patch curModel) (chosenSegment patch curModel) with
        | .error e => .error (e, s1)
        | .ok (model, s2) =>
          match upsertVehicleVariant s2 model.id batteryKwh rangeKm
              (chosenChargingType patch curVariant) priceEur with
          | .error e => .error (e, s2)
          | .ok (variant, s3) => .ok (some variant.id, s3)
    | _, _, _ => .error ("TypeError: cannot read properties of null", s)
  else .ok (none, s)

/-- Location phase of updateTrip, used for origin (lines 351-363) and
destination (lines 366-378): when the city or the country of that side is
truthy, upsert the location obtained by backfilling the missing half from the
included current row, and return its id for relinking. -/
def locationPhase (s : Store) (cityPatch countryPatch : Option String)
    (curLoc? : Option Location) : Except (String × Store) (Option Nat × Store) :=
  if isTruthyStr cityPatch || isTruthyStr countryPatch then
    match curLoc? with
    | some curLoc =>
      match upsertLocation s (cityPatch.getD curLoc.city) (countryPatch.getD curLoc.country) with
      | (loc, s1) => .ok (some loc.id, s1)
    | none => .error ("TypeError: cannot read properties of null", s)
  else .ok (none, s)

/-- Trip-date entry of the prisma.trip.update data object (lines 384-386):
a truthy trip_date is parsed with the same dual-format parser as create (at
this point, after the upserts have run); a falsy one contributes nothing. -/
def parsePatchTripDate (patch : TripUpdateDTO) : Except String (Option Int) :=
  match patch.trip_date with
  | some td =>
    if td == "" then .ok none
    else
      match parseTripDate td with
      | .ok d => .ok (some d)
      | .error e => .error e
  | none => .ok none

/-- Data object of the prisma.trip.update call (lines 381-401): scalar fields
are written only when present (tripDate only when truthy), and the resolved
foreign keys only when truthy. -/
def applyTripPatch (patch : TripUpdateDTO) (tripDate? : Option Int)
    (nextVehicleVariantId nextOriginId nextDestinationId : Option Nat) (t : Trip) : Trip :=
  { t with
      tripDate := tripDate?.getD t.tripDate,
      distanceKm := patch.distance_km.getD t.distanceKm,
      co2_g_per_km := patch.co2_g_per_km.getD t.co2_g_per_km,
      grid_intensity_gco2_per_kwh :=
        patch.grid_intensity_gco2_per_kwh.getD t.grid_intensity_gco2_per_kwh,
      vehicleVariantId :=
        if isTruthyNat nextVehicleVariantId then nextVehicleVariantId.getD t.vehicleVariantId
        else t.vehicleVariantId,
      originId :=
        if isTruthyNat nextOriginId then nextOriginId.getD t.originId else t.originId,
      destinationId :=
        if isTruthyNat nextDestinationId then nextDestinationId.getD t.destinationId
        else t.destinationId }

/-- PUT /trips/:id: load the current trip with its relations, run the vehicle
phase and the two location phases, then update the trip row, parsing a truthy
trip_date at that point.  The relation rows are read by the findUnique
include at load time; the RESTRICT foreign keys of the schema keep them
present in every store reachable through the API, and the model reads them
where the code dereferences them. -/
def updateTrip (s0 : Store) (id : Nat) (patch : TripUpdateDTO) :
    Except (String × Store) (Trip × Store) :=
  match s0.trips.find? (fun t => t.id == id) with
  | none => .error ("Trip not found", s0)
  | some current =>
    let curVariant? := s0.vehicleVariants.find? (fun v => v.id == current.vehicleVariantId)
    let curModel? := curVariant?.bind (fun v => s0.vehicleModels.find? (fun m => m.id == v.modelId))
    let curManufacturer? :=
      curModel?.bind (fun m => s0.manufacturers.find? (fun x => x.id == m.manufacturerId))
    let curOrigin? := s0.locations.find? (fun l => l.id == current.originId)
    let curDest? := s0.locations.find? (fun l => l.id == current.destinationId)
    match vehiclePhase s0 patch curVariant? curModel? curManufacturer? with
    | .error es => .error es
    | .ok (nextVehicleVariantId, s1) =>
      match locationPhase s1 patch.origin_city patch.origin_country curOrigin? with
      | .error es => .error es
      | .ok (nextOriginId, s2) =>
        match locationPhase s2 patch.destination_city patch.destination_country curDest? with
        | .error es => .error es
        | .ok (nextDestinationId, s3) =>
          match parsePatchTripDate patch with
          | .error e => .error (e, s3)
          | .ok tripDate? =>
            let upd := applyTripPatch patch tripDate?
              nextVehicleVariantId nextOriginId nextDestinationId
            .ok (upd current,
                 { s3 with trips := s3.trips.map (fun t => if t.id == id then upd t else t) })

/-! ## deleteTrip (service.ts lines 416-495) -/

/-- Vehicle part of the delete cleanup (lines 434-461), running on the store
with the trip row already removed: if no remaining trip references the
variant, delete it; if that was the last variant of its model, delete the
model; if that was the last model of its manufacturer, delete the
manufacturer.  The modelId and manufacturerId come from the include captured
at delete time; dereferencing a missing included row, or deleting a row that
is not there, fails (and the enclosing transaction rolls back). -/
def cleanupVehicle (s : Store) (deleted : Trip) : Except String Store :=
  if (s.trips.filter (fun t => t.vehicleVariantId == deleted.vehicleVariantId)).length == 0 then
    match s.vehicleVariants.find? (fun v => v.id == deleted.vehicleVariantId) with
    | none => .error "TypeError: included vehicleVariant is null"
    | some variant =>
      let sv : Store :=
        { s with vehicleVariants :=
            s.vehicleVariants.filter (fun v => !(v.id == deleted.vehicleVariantId)) }
      if (sv.vehicleVariants.filter (fun v => v.modelId == variant.modelId)).length == 0 then
        match sv.vehicleModels.find? (fun m => m.id == variant.modelId) with
        | none => .error "TypeError: included model is null"
        | some model =>
          let sm : Store :=
            { sv with vehicleModels :=
                sv.vehicleModels.filter (fun m => !(m.id == variant.modelId)) }
          if (sm.vehicleModels.filter
              (fun m => m.manufacturerId == model.manufacturerId)).length == 0 then
            if sm.manufacturers.any (fun m => m.id == model.manufacturerId) then
              .ok { sm with manufacturers :=
                      sm.manufacturers.filter (fun m => !(m.id == model.manufacturerId)) }
            else .error "Record to delete does not exist"
          else .ok sm
      else .ok sv
  else .ok s

/-- Location part of the delete cleanup (lines 466-491): delete the location
only when no remaining trip references it as originId or destinationId; a
delete of a row that is not there fails (and the transaction rolls back). -/
def cleanupLocation (s : Store) (locId : Nat) : Except String Store :=
  if (s.trips.filter (fun t => t.originId == locId || t.destinationId == locId)).length == 0 then
    if s.locations.any (fun l => l.id == locId) then
      .ok { s with locations := s.locations.filter (fun l => !(l.id == locId)) }
    else .error "Record to delete does not exist"
  else .ok s

/-- Cleanup transaction body (lines 430-492): vehicle chain, then origin
location, then destination location. -/
def deleteCleanup (s : Store) (deleted : Trip) : Except String Store :=
  match cleanupVehicle s deleted with
  | .error e => .error e
  | .ok s2 =>
    match cleanupLocation s2 deleted.originId with
    | .error e => .error e
    | .ok s3 => cleanupLocation s3 deleted.destinationId

/-- DELETE /trips/:id: delete the trip row (capturing its foreign keys and
included chain), then run the reference-counted cleanup inside a transaction;
a cleanup failure rolls the transaction back, leaving the store with exactly
the trip row removed, since the trip delete itself ran before the
transaction. -/
def deleteTrip (s0 : Store) (id : Nat) : Except (String × Store) Store :=
  match s0.trips.find? (fun t => t.id == id) with
  | none => .error ("Trip not found", s0)
  | some deleted =>
    let s1 : Store := { s0 with trips := s0.trips.filter (fun t => !(t.id == id)) }
    match deleteCleanup s1 deleted with
    | .ok s2 => .ok s2
    | .error e => .error (e, s1)

/-! ## Generic list lemmas -/

theorem find?_append_of_none {α : Type} {p : α → Bool} {l₁ l₂ : List α}
    (h : l₁.find? p = none) : (l₁ ++ l₂).find? p = l₂.find? p := by
  rw [List.find?_append, h, Option.none_or]

theorem find?_map_keyed {α : Type} (f : α → α) (p : α → Bool)
    (hp : ∀ a, p (f a) = p a) (l : List α) :
    (l.map f).find? p = (l.find? p).map f := by
  induction l with
  | nil => rfl
  | cons a t ih =>
    by_cases ha : p a
    · simp [List.find?_cons, hp a, ha]
    · simp [List.find?_cons, hp a, ha, ih]

theorem map_eq_self_of_fixed {α : Type} {f : α → α} {l : List α}
    (h : ∀ a ∈ l, f a = a) : l.map f = l := by
  rw [List.map_congr_left h]
  simp

theorem filter_eq_nil_of_none {α : Type} {p : α → Bool} {l : List α}
    (h : ∀ a ∈ l, p a = false) : l.filter p = [] := by
  exact List.filter_eq_nil_iff.mpr (by intro a ha; rw [h a ha]; simp)

/-! ## Behavioral lemmas about the upsert primitives -/

theorem upsertManufacturer_found {s : Store} {name : String} {m : Manufacturer}
    (hf : s.manufacturers.find? (fun x => x.name == name) = some m) :
    upsertManufacturer s name = (m, s) := by
  unfold upsertManufacturer
  rw [hf]

theorem upsertManufacturer_post {s s' : Store} {name : String} {m : Manufacturer}
    (h : upsertManufacturer s name = (m, s')) :
    s'.manufacturers.find? (fun x => x.name == name) = some m := by
  unfold upsertManufacturer at h
  cases hf : s.manufacturers.find? (fun x => x.name == name) with
  | some m0 =>
    rw [hf] at h
    cases h
    exact hf
  | none =>
    rw [hf] at h
    cases h
    show (s.manufacturers ++ _).find? _ = _
    rw [find?_append_of_none hf]
    simp [List.find?]

theorem upsertManufacturer_frame {s s' : Store} {name : String} {m : Manufacturer}
    (h : upsertManufacturer s name = (m, s')) :
    s'.vehicleModels = s.vehicleModels ∧ s'.vehicleVariants = s.vehicleVariants ∧
    s'.locations = s.locations ∧ s'.trips = s.trips ∧
    s'.nextModelId = s.nextModelId ∧ s'.nextVariantId = s.nextVariantId ∧
    s'.nextLocationId = s.nextLocationId ∧ s'.nextTripId = s.nextTripId := by
  unfold upsertManufacturer at h
  cases hf : s.manufacturers.find? (fun x => x.name == name) with
  | some m0 => rw [hf] at h; cases h; exact ⟨rfl, rfl, rfl, rfl, rfl, rfl, rfl, rfl⟩
  | none => rw [hf] at h; cases h; exact ⟨rfl, rfl, rfl, rfl, rfl, rfl, rfl, rfl⟩

theorem upsertLocation_found {s : Store} {city country : String} {l : Location}
    (hf : s.locations.find? (fun x => x.city == city && x.country == country) = some l) :
    upsertLocation s city country = (l, s) := by
  unfold upsertLocation
  rw [hf]

theorem upsertLocation_post {s s' : Store} {city country : String} {l : Location}
    (h : upsertLocation s city country = (l, s')) :
    s'.locations.find? (fun x => x.city == city && x.country == country) = some l := by
  unfold upsertLocation at h
  cases hf : s.locations.find? (fun x => x.city == city && x.country == country) with
  | some l0 =>
    rw [hf] at h
    cases h
    exact hf
  | none =>
    rw [hf] at h
    cases h
    show (s.locations ++ _).find? _ = _
    rw [find?_append_of_none hf]
    simp [List.find?]

theorem upsertLocation_frame {s s' : Store} {city country : String} {l : Location}
    (h : upsertLocation s city country = (l, s')) :
    s'.manufacturers = s.manufacturers ∧ s'.vehicleModels = s.vehicleModels ∧
    s'.vehicleVariants = s.vehicleVariants ∧ s'.trips = s.trips ∧
    s'.nextManufacturerId = s.nextManufacturerId ∧ s'.nextModelId = s.nextModelId ∧
    s'.nextVariantId = s.nextVariantId ∧ s'.nextTripId = s.nextTripId := by
  unfold upsertLocation at h
  cases hf : s.locations.find? (fun x => x.city == city && x.country == country) with
  | some l0 => rw [hf] at h; cases h; exact ⟨rfl, rfl, rfl, rfl, rfl, rfl, rfl, rfl⟩
  | none => rw [hf] at h; cases h; exact ⟨rfl, rfl, rfl, rfl, rfl, rfl, rfl, rfl⟩

theorem upsertVehicleModelCreatePath_found {s : Store} {manufacturerId : Nat}
    {name bodyType segment : String} {m : VehicleModel}
    (hv : (bodyTypeValues.contains bodyType && segmentValues.contains segment) = true)
    (hf : s.vehicleModels.find? (modelKeyMatch manufacturerId name) = some m) :
    upsertVehicleModelCreatePath s manufacturerId name bodyType segment = .ok (m, s) := by
  unfold upsertVehicleModelCreatePath
  simp only [hv, if_true, hf]

theorem upsertVehicleModelCreatePath_post {s s' : Store} {manufacturerId : Nat}
    {name bodyType segment : String} {m : VehicleModel}
    (h : upsertVehicleModelCreatePath s manufacturerId name bodyType segment = .ok (m, s')) :
    (bodyTypeValues.contains bodyType && segmentValues.contains segment) = true ∧
    s'.vehicleModels.find? (modelKeyMatch manufacturerId name) = some m := by
  unfold upsertVehicleModelCreatePath at h
  cases hv : bodyTypeValues.contains bodyType && segmentValues.contains segment with
  | false => rw [hv] at h; simp at h
  | true =>
    rw [hv] at h
    simp only [if_true] at h
    refine ⟨rfl, ?_⟩
    cases hf : s.vehicleModels.find? (modelKeyMatch manufacturerId name) with
    | some m0 =>
      rw [hf] at h
      cases h
      exact hf
    | none =>
      rw [hf] at h
      cases h
      show (s.vehicleModels ++ _).find? _ = _
      rw [find?_append_of_none hf]
      simp [List.find?, modelKeyMatch]

theorem upsertVehicleModelCreatePath_frame {s s' : Store} {manufacturerId : Nat}
    {name bodyType segment : String} {m : VehicleModel}
    (h : upsertVehicleModelCreatePath s manufacturerId name bodyType segment = .ok (m, s')) :
    s'.manufacturers = s.manufacturers ∧ s'.vehicleVariants = s.vehicleVariants ∧
    s'.locations = s.locations ∧ s'.trips = s.trips ∧
    s'.nextManufacturerId = s.nextManufacturerId ∧ s'.nextVariantId = s.nextVariantId ∧
    s'.nextLocationId = s.nextLocationId ∧ s'.nextTripId = s.nextTripId := by
  unfold upsertVehicleModelCreatePath at h
  cases hv : bodyTypeValues.contains bodyType && segmentValues.contains segment with
  | false => rw [hv] at h; simp at h
  | true =>
    rw [hv] at h
    simp only [if_true] at h
    cases hf : s.vehicleModels.find? (modelKeyMatch manufacturerId name) with
    | some m0 => rw [hf] at h; cases h; exact ⟨rfl, rfl, rfl, rfl, rfl, rfl, rfl, rfl⟩
    | none => rw [hf] at h; cases h; exact ⟨rfl, rfl, rfl, rfl, rfl, rfl, rfl, rfl⟩

theorem variantKeyMatch_setPrice (modelId : Nat) (batteryKwh rangeKm : Int)
    (chargingType : String) (p : Int) (x : VehicleVariant) :
    variantKeyMatch modelId batteryKwh rangeKm chargingType { x with priceEur := p } =
      variantKeyMatch modelId batteryKwh rangeKm chargingType x := by
  cases x
  rfl

theorem upsertVehicleVariant_post {s s' : Store} {modelId : Nat} {batteryKwh rangeKm : Int}
    {chargingType : String} {priceEur : Int} {v : VehicleVariant}
    (h : upsertVehicleVariant s modelId batteryKwh rangeKm chargingType priceEur = .ok (v, s')) :
    chargingTypeValues.contains chargingType = true ∧
    s'.vehicleVariants.find? (variantKeyMatch modelId batteryKwh rangeKm chargingType) = some v ∧
    v.priceEur = priceEur ∧
    (∀ x ∈ s'.vehicleVariants,
      variantKeyMatch modelId batteryKwh rangeKm chargingType x = true → x.priceEur = priceEur) := by
  unfold upsertVehicleVariant at h
  cases hv : chargingTypeValues.contains chargingType with
  | false => rw [hv] at h; simp at h
  | true =>
    rw [hv] at h
    simp only [if_true] at h
    cases hf : s.vehicleVariants.find?
        (variantKeyMatch modelId batteryKwh rangeKm chargingType) with
    | some v0 =>
      rw [hf] at h
      cases h
      refine ⟨rfl, ?_, rfl, ?_⟩
      · rw [show ({ s with vehicleVariants := s.vehicleVariants.map (fun x =>
              if variantKeyMatch modelId batteryKwh rangeKm chargingType x then
                { x with priceEur := priceEur } else x) } : Store).vehicleVariants =
            s.vehicleVariants.map (fun x =>
              if variantKeyMatch modelId batteryKwh rangeKm chargingType x then
                { x with priceEur := priceEur } else x) from rfl]
        rw [find?_map_keyed _ _ (fun a => by
          by_cases ha : variantKeyMatch modelId batteryKwh rangeKm chargingType a = true
          · simp [ha, variantKeyMatch_setPrice]
          · simp [Bool.not_eq_true] at ha
            simp [ha])]
        rw [hf]
        simp [List.find?_some hf]
      · intro x hx hkey
        rw [show ({ s with vehicleVariants := s.vehicleVariants.map (fun x =>
              if variantKeyMatch modelId batteryKwh rangeKm chargingType x then
                { x with priceEur := priceEur } else x) } : Store).vehicleVariants =
            s.vehicleVariants.map (fun x =>
              if variantKeyMatch modelId batteryKwh rangeKm chargingType x then
                { x with priceEur := priceEur } else x) from rfl] at hx
        rw [List.mem_map] at hx
        obtain ⟨y, hy, hxy⟩ := hx
        by_cases hky : variantKeyMatch modelId batteryKwh rangeKm chargingType y = true
        · rw [if_pos hky] at hxy
          rw [← hxy]
        · rw [if_neg hky] at hxy
          rw [← hxy] at hkey
          exact absurd hkey hky
    | none =>
      rw [hf] at h
      cases h
      refine ⟨rfl, ?_, rfl, ?_⟩
      · show (s.vehicleVariants ++ _).find? _ = _
        rw [find?_append_of_none hf]
        simp [List.find?, variantKeyMatch]
      · intro x hx hkey
        rw [show ({ s with
              vehicleVariants := s.vehicleVariants ++
                [⟨s.nextVariantId, modelId, batteryKwh, rangeKm, chargingType, priceEur⟩],
              nextVariantId := s.nextVariantId + 1 } : Store).vehicleVariants =
            s.vehicleVariants ++
              [⟨s.nextVariantId, modelId, batteryKwh, rangeKm, chargingType, priceEur⟩]
            from rfl] at hx
        rw [List.mem_append] at hx
        cases hx with
        | inl hmem =>
          exact absurd hkey (by simpa using List.find?_eq_none.mp hf x hmem)
        | inr hsing =>
          rw [List.mem_singleton] at hsing
          rw [hsing]

theorem upsertVehicleVariant_stable {s : Store} {modelId : Nat} {batteryKwh rangeKm : Int}
    {chargingType : String} {priceEur : Int} {v : VehicleVariant}
    (hv : chargingTypeValues.contains chargingType = true)
    (hf : s.vehicleVariants.find? (variantKeyMatch modelId batteryKwh rangeKm chargingType) = some v)
    (hall : ∀ x ∈ s.vehicleVariants,
      variantKeyMatch modelId batteryKwh rangeKm chargingType x = true → x.priceEur = priceEur) :
    upsertVehicleVariant s modelId batteryKwh rangeKm chargingType priceEur = .ok (v, s) := by
  have hvp : v.priceEur = priceEur :=
    hall v (List.mem_of_find?_eq_some hf) (List.find?_some hf)
  unfold upsertVehicleVariant
  rw [hv]
  simp only [if_true, hf]
  have hmap : s.vehicleVariants.map (fun x =>
      if variantKeyMatch modelId batteryKwh rangeKm chargingType x then
        { x with priceEur := priceEur } else x) = s.vehicleVariants := by
    apply map_eq_self_of_fixed
    intro a ha
    by_cases hka : variantKeyMatch modelId batteryKwh rangeKm chargingType a = true
    · rw [if_pos hka]
      have := hall a ha hka
      cases a
      simp_all
    · rw [if_neg hka]
  rw [hmap]
  have hvv : ({ v with priceEur := priceEur } : VehicleVariant) = v := by
    cases v
    simp_all
  rw [hvv]

theorem upsertVehicleVariant_frame {s s' : Store} {modelId : Nat} {batteryKwh rangeKm : Int}
    {chargingType : String} {priceEur : Int} {v : VehicleVariant}
    (h : upsertVehicleVariant s modelId batteryKwh rangeKm chargingType priceEur = .ok (v, s')) :
    s'.manufacturers = s.manufacturers ∧ s'.vehicleModels = s.vehicleModels ∧
    s'.locations = s.locations ∧ s'.trips = s.trips ∧
    s'.nextManufacturerId = s.nextManufacturerId ∧ s'.nextModelId = s.nextModelId ∧
    s'.nextLocationId = s.nextLocationId ∧ s'.nextTripId = s.nextTripId := by
  unfold upsertVehicleVariant at h
  cases hv : chargingTypeValues.contains chargingType with
  | false => rw [hv] at h; simp at h
  | true =>
    rw [hv] at h
    simp only [if_true] at h
    cases hf : s.vehicleVariants.find?
        (variantKeyMatch modelId batteryKwh rangeKm chargingType) with
    | some v0 => rw [hf] at h; cases h; exact ⟨rfl, rfl, rfl, rfl, rfl, rfl, rfl, rfl⟩
    | none => rw [hf] at h; cases h; exact ⟨rfl, rfl, rfl, rfl, rfl, rfl, rfl, rfl⟩

theorem find?_append_of_some {α : Type} {p : α → Bool} {l₁ l₂ : List α} {a : α}
    (h : l₁.find? p = some a) : (l₁ ++ l₂).find? p = some a := by
  rw [List.find?_append, h]
  rfl

theorem upsertLocation_extends {s s' : Store} {city country : String} {l : Location}
    (h : upsertLocation s city country = (l, s')) :
    ∃ tail, s'.locations = s.locations ++ tail := by
  unfold upsertLocation at h
  cases hf : s.locations.find? (fun x => x.city == city && x.country == country) with
  | some l0 => rw [hf] at h; cases h; exact ⟨[], by simp⟩
  | none => rw [hf] at h; cases h; exact ⟨_, rfl⟩

/-! ## Claim theorems -/

/-- C1: Create idempotency.  A second createFromCsvRow call with the same row,
against the store produced by a successful first call, returns the very same
trip and leaves the store completely unchanged: the two results have the same
id, the second call inserts no new Trip row and updates no Trip field, and no
duplicate Manufacturer, VehicleModel, VehicleVariant or Location row is
created by the second call. -/
theorem createFromCsvRow_idempotent (s0 : Store) (row : TripCreateDTO) (t1 : Trip) (s1 : Store)
    (h : createFromCsvRow s0 row = .ok (t1, s1)) :
    createFromCsvRow s1 row = .ok (t1, s1) := by
  unfold createFromCsvRow at h ⊢
  cases hd : parseTripDate row.trip_date with
  | error e => rw [hd] at h; simp at h
  | ok tripDate =>
    rw [hd] at h
    rcases hman : upsertManufacturer s0 row.manufacturer with ⟨man, sA⟩
    rw [hman] at h
    simp only [] at h
    cases hmod : upsertVehicleModelCreatePath sA man.id row.model
        (toEnum row.body_type) (toEnum row.segment) with
    | error err => rw [hmod] at h; simp at h
    | ok pr =>
      rcases pr with ⟨model, sB⟩
      rw [hmod] at h
      simp only [] at h
      cases hvar : upsertVehicleVariant sB model.id row.battery_kwh row.range_km
          (toEnum row.charging_type) row.price_eur with
      | error err => rw [hvar] at h; simp at h
      | ok pr2 =>
        rcases pr2 with ⟨variant, sC⟩
        rw [hvar] at h
        simp only [] at h
        rcases horig : upsertLocation sC row.origin_city row.origin_country with ⟨origin, sD⟩
        rw [horig] at h
        simp only [] at h
        rcases hdest : upsertLocation sD row.destination_city row.destination_country
          with ⟨dest, sE⟩
        rw [hdest] at h
        simp only [] at h
        obtain ⟨fr2m, fr2v, fr2l, fr2t, -, -, -, -⟩ := upsertVehicleModelCreatePath_frame hmod
        obtain ⟨fr3m, fr3mo, fr3l, fr3t, -, -, -, -⟩ := upsertVehicleVariant_frame hvar
        obtain ⟨fr4m, fr4mo, fr4v, fr4t, -, -, -, -⟩ := upsertLocation_frame horig
        obtain ⟨fr5m, fr5mo, fr5v, fr5t, -, -, -, -⟩ := upsertLocation_frame hdest
        obtain ⟨tailD, htailD⟩ := upsertLocation_extends hdest
        have hpostman := upsertManufacturer_post hman
        obtain ⟨hval2, hfind2⟩ := upsertVehicleModelCreatePath_post hmod
        obtain ⟨hval3, hfind3, hprice3, hall3⟩ := upsertVehicleVariant_post hvar
        have hfind4 := upsertLocation_post horig
        have hfind5 := upsertLocation_post hdest
        have hmanE : sE.manufacturers = sA.manufacturers := by rw [fr5m, fr4m, fr3m, fr2m]
        have hmodelsE : sE.vehicleModels = sB.vehicleModels := by rw [fr5mo, fr4mo, fr3mo]
        have hvarsE : sE.vehicleVariants = sC.vehicleVariants := by rw [fr5v, fr4v]
        cases hft : sE.trips.find? (tripIdentityMatch tripDate variant.id origin.id
            dest.id row.distance_km) with
        | some existing =>
          rw [hft] at h
          cases h
          have g1 : upsertManufacturer s1 row.manufacturer = (man, s1) :=
            upsertManufacturer_found (by rw [hmanE]; exact hpostman)
          rw [g1]
          simp only []
          have g2 : upsertVehicleModelCreatePath s1 man.id row.model
              (toEnum row.body_type) (toEnum row.segment) = .ok (model, s1) :=
            upsertVehicleModelCreatePath_found hval2 (by rw [hmodelsE]; exact hfind2)
          rw [g2]
          simp only []
          have g3 : upsertVehicleVariant s1 model.id row.battery_kwh row.range_km
              (toEnum row.charging_type) row.price_eur = .ok (variant, s1) :=
            upsertVehicleVariant_stable hval3 (by rw [hvarsE]; exact hfind3)
              (by rw [hvarsE]; exact hall3)
          rw [g3]
          simp only []
          have g4 : upsertLocation s1 row.origin_city row.origin_country = (origin, s1) :=
            upsertLocation_found (by rw [htailD]; exact find?_append_of_some hfind4)
          rw [g4]
          simp only []
          have g5 : upsertLocation s1 row.destination_city row.destination_country = (dest, s1) :=
            upsertLocation_found hfind5
          rw [g5]
          simp only []
          rw [hft]
        | none =>
          rw [hft] at h
          cases h
          have g1 : upsertManufacturer
              ({ sE with
                   trips := sE.trips ++ [⟨sE.nextTripId, tripDate, row.distance_km,
                     row.co2_g_per_km, row.grid_intensity_gco2_per_kwh, variant.id,
                     origin.id, dest.id⟩],
                   nextTripId := sE.nextTripId + 1 } : Store) row.manufacturer =
              (man, { sE with
                   trips := sE.trips ++ [⟨sE.nextTripId, tripDate, row.distance_km,
                     row.co2_g_per_km, row.grid_intensity_gco2_per_kwh, variant.id,
                     origin.id, dest.id⟩],
                   nextTripId := sE.nextTripId + 1 }) :=
            upsertManufacturer_found (by
              show sE.manufacturers.find? _ = some man
              rw [hmanE]; exact hpostman)
          rw [g1]
          simp only []
          have g2 : upsertVehicleModelCreatePath
              ({ sE with
                   trips := sE.trips ++ [⟨sE.nextTripId, tripDate, row.distance_km,
                     row.co2_g_per_km, row.grid_intensity_gco2_per_kwh, variant.id,
                     origin.id, dest.id⟩],
                   nextTripId := sE.nextTripId + 1 } : Store) man.id row.model
              (toEnum row.body_type) (toEnum row.segment) =
              .ok (model, { sE with
                   trips := sE.trips ++ [⟨sE.nextTripId, tripDate, row.distance_km,
                     row.co2_g_per_km, row.grid_intensity_gco2_per_kwh, variant.id,
                     origin.id, dest.id⟩],
                   nextTripId := sE.nextTripId + 1 }) :=
            upsertVehicleModelCreatePath_found hval2 (by
              show sE.vehicleModels.find? _ = some model
              rw [hmodelsE]; exact hfind2)
          rw [g2]
          simp only []
          have g3 : upsertVehicleVariant
              ({ sE with
                   trips := sE.trips ++ [⟨sE.nextTripId, tripDate, row.distance_km,
                     row.co2_g_per_km, row.grid_intensity_gco2_per_kwh, variant.id,
                     origin.id, dest.id⟩],
                   nextTripId := sE.nextTripId + 1 } : Store) model.id row.battery_kwh
              row.range_km (toEnum row.charging_type) row.price_eur =
              .ok (variant, { sE with
                   trips := sE.trips ++ [⟨sE.nextTripId, tripDate, row.distance_km,
                     row.co2_g_per_km, row.grid_intensity_gco2_per_kwh, variant.id,
                     origin.id, dest.id⟩],
                   nextTripId := sE.nextTripId + 1 }) :=
            upsertVehicleVariant_stable hval3 (by
              show sE.vehicleVariants.find? _ = some variant
              rw [hvarsE]; exact hfind3)
              (by
                show ∀ x ∈ sE.vehicleVariants, _
                rw [hvarsE]; exact hall3)
          rw [g3]
          simp only []
          have g4 : upsertLocation
              ({ sE with
                   trips := sE.trips ++ [⟨sE.nextTripId, tripDate, row.distance_km,
                     row.co2_g_per_km, row.grid_intensity_gco2_per_kwh, variant.id,
                     origin.id, dest.id⟩],
                   nextTripId := sE.nextTripId + 1 } : Store) row.origin_city
              row.origin_country =
              (origin, { sE with
                   trips := sE.trips ++ [⟨sE.nextTripId, tripDate, row.distance_km,
                     row.co2_g_per_km, row.grid_intensity_gco2_per_kwh, variant.id,
                     origin.id, dest.id⟩],
                   nextTripId := sE.nextTripId + 1 }) :=
            upsertLocation_found (by
              show sE.locations.find? _ = some origin
              rw [htailD]; exact find?_append_of_some hfind4)
          rw [g4]
          simp only []
          have g5 : upsertLocation
              ({ sE with
                   trips := sE.trips ++ [⟨sE.nextTripId, tripDate, row.distance_km,
                     row.co2_g_per_km, row.grid_intensity_gco2_per_kwh, variant.id,
                     origin.id, dest.id⟩],
                   nextTripId := sE.nextTripId + 1 } : Store) row.destination_city
              row.destination_country =
              (dest, { sE with
                   trips := sE.trips ++ [⟨sE.nextTripId, tripDate, row.distance_km,
                     row.co2_g_per_km, row.grid_intensity_gco2_per_kwh, variant.id,
                     origin.id, dest.id⟩],
                   nextTripId := sE.nextTripId + 1 }) :=
            upsertLocation_found (by
              show sE.locations.find? _ = some dest
              exact hfind5)
          rw [g5]
          simp only []
          have hftE : ({ sE with
                   trips := sE.trips ++ [⟨sE.nextTripId, tripDate, row.distance_km,
                     row.co2_g_per_km, row.grid_intensity_gco2_per_kwh, variant.id,
                     origin.id, dest.id⟩],
                   nextTripId := sE.nextTripId + 1 } : Store).trips.find?
              (tripIdentityMatch tripDate variant.id origin.id dest.id row.distance_km) =
              some ⟨sE.nextTripId, tripDate, row.distance_km, row.co2_g_per_km,
                row.grid_intensity_gco2_per_kwh, variant.id, origin.id, dest.id⟩ := by
            show (sE.trips ++ _).find? _ = _
            rw [find?_append_of_none hft]
            simp [List.find?, tripIdentityMatch]
          rw [hftE]

/-! ## Concrete sample data used by witnesses and counterexamples -/

/-- Freshly migrated store: no rows, every SERIAL sequence at 1. -/
def initialStore : Store := ⟨[], [], [], [], [], 1, 1, 1, 1, 1⟩

/-- A valid CSV row (the first row of the test fixture of the repository). -/
def sampleRow : TripCreateDTO :=
  { trip_date := "10/02/2025", manufacturer := "BMW Group", model := "iX3",
    body_type := "Crossover", segment := "Mid-size", battery_kwh := 80, range_km := 463,
    charging_type := "DC", price_eur := 70157, origin_city := "New York",
    origin_country := "United States", destination_city := "Casablanca",
    destination_country := "Morocco", distance_km := 5813, co2_g_per_km := 58,
    grid_intensity_gco2_per_kwh := 350 }

/-- The trip produced by sampleRow on the empty store. -/
def sampleTrip : Trip := ⟨1, 1739145600000, 5813, 58, 350, 1, 1, 2⟩

/-- The store produced by sampleRow on the empty store. -/
def sampleStore : Store :=
  ⟨[⟨1, "BMW Group"⟩],
   [⟨1, 1, "iX3", "CROSSOVER", "MID_SIZE"⟩],
   [⟨1, 1, 80, 463, "DC", 70157⟩],
   [⟨1, "New York", "United States"⟩, ⟨2, "Casablanca", "Morocco"⟩],
   [sampleTrip], 2, 2, 2, 3, 2⟩

/-- Witness for C1: the idempotency theorem applied to the concrete sample
row against the empty store; the second call returns the same trip and the
unchanged store. -/
theorem createFromCsvRow_idempotent_witness :
    createFromCsvRow sampleStore sampleRow = .ok (sampleTrip, sampleStore) :=
  createFromCsvRow_idempotent initialStore sampleRow sampleTrip sampleStore rfl

/-- C6 counterexample: the string 2025-02-10T05:00:00Z matches neither of the
two accepted formats (DD/MM/YYYY, YYYY-MM-DD), yet parseTripDate does not
fail: the last-resort new Date(...) branch accepts it and truncates it to the
UTC midnight 2025-02-10T00:00:00.000Z (time value 1739145600000).  This
refutes the part of the claim that says every trip_date string unparseable
under the accepted formats fails with a ValidationError. -/
theorem parseTripDate_fallback_counterexample :
    parseTripDate "2025-02-10T05:00:00Z" = .ok 1739145600000 := rfl

/-- C6 (amended): the two accepted formats 10/02/2025 (DD/MM/YYYY) and
2025-02-10 (YYYY-MM-DD) both parse to the same UTC-midnight instant
2025-02-10T00:00:00.000Z (time value 1739145600000); a trip_date string
matching neither accepted format is handed to the last-resort general
JavaScript date parser and fails with a ValidationError only when that parser
also rejects it: the ISO timestamp 2025-02-10T05:00:00Z is accepted and
truncated to the same midnight, while a string no branch accepts fails with
the validation error. -/
theorem parseTripDate_formats :
    parseTripDate "10/02/2025" = .ok 1739145600000 ∧
    parseTripDate "2025-02-10" = .ok 1739145600000 ∧
    parseTripDate "2025-02-10T05:00:00Z" = .ok 1739145600000 ∧
    parseTripDate "today" =
      .error "Invalid trip_date format. Expected DD/MM/YYYY or YYYY-MM-DD." :=
  ⟨rfl, rfl, rfl, rfl⟩

/-- Row whose DD/MM/YYYY-shaped date has an out-of-range day. -/
def rolloverRow : TripCreateDTO := { sampleRow with trip_date := "31/02/2025" }

/-- C10: a trip_date matching the DD/MM/YYYY shape with an out-of-range day
is not rejected: 31/02/2025 rolls over arithmetically to 2025-03-03 UTC
midnight (time value 1740960000000), and createFromCsvRow accepts the row,
storing the shifted date. -/
theorem parseTripDate_rollover :
    parseTripDate "31/02/2025" = .ok 1740960000000 ∧
    (match createFromCsvRow initialStore rolloverRow with
     | .ok (t, _) => t.tripDate = 1740960000000
     | .error _ => False) :=
  ⟨rfl, rfl⟩

/-- Row with a charging type outside the ChargingType enum domain. -/
def badChargingRow : TripCreateDTO := { sampleRow with charging_type := "Wireless" }

/-- The store left behind by the failing create: the manufacturer and model
rows of the first two steps are committed, nothing else. -/
def leftoverStore : Store :=
  ⟨[⟨1, "BMW Group"⟩], [⟨1, 1, "iX3", "CROSSOVER", "MID_SIZE"⟩], [], [], [], 2, 2, 1, 1, 1⟩

/-- C2 counterexample: a createFromCsvRow call whose vehicleVariant step fails
(invalid charging_type enum value) aborts, but the store is not left as it
was before the call: the Manufacturer and VehicleModel rows inserted by the
earlier steps remain committed, because the create path runs its queries
outside any transaction. -/
theorem createFromCsvRow_leftover_commit :
    createFromCsvRow initialStore badChargingRow =
      .error ("Invalid enum value for VehicleVariant chargingType", leftoverStore) ∧
    leftoverStore ≠ initialStore :=
  ⟨rfl, by decide⟩

/-- Patch that renames the manufacturer and carries an invalid charging
type, so the vehicle chain recomputes and fails at the variant step. -/
def badUpdatePatch : TripUpdateDTO :=
  { manufacturer := some "NewCo", charging_type := some "Wireless" }

/-- Store left behind by the failing update: the new manufacturer and the
model created under it by the steps preceding the failure remain committed;
the trip and the variant are untouched. -/
def updateLeftoverStore : Store :=
  { sampleStore with
      manufacturers := [⟨1, "BMW Group"⟩, ⟨2, "NewCo"⟩],
      vehicleModels := [⟨1, 1, "iX3", "CROSSOVER", "MID_SIZE"⟩,
        ⟨2, 2, "iX3", "CROSSOVER", "MID_SIZE"⟩],
      nextManufacturerId := 3,
      nextModelId := 3 }

/-- C2 (amended): only the delete cleanup is all-or-nothing.  When deleteTrip
fails it leaves either the untouched store (trip not found) or the store with
exactly the Trip row removed (the cleanup transaction rolled back); but
createFromCsvRow and updateTrip are not transactional, so a failing step
aborts the operation while the entity rows written by the preceding steps
stay committed, as the concrete failing create of the second conjunct and the
concrete failing update of the third conjunct show. -/
theorem writeOps_atomicity_amended :
    (∀ (s : Store) (id : Nat) (e : String) (s' : Store),
        deleteTrip s id = .error (e, s') →
        s' = s ∨ s' = { s with trips := s.trips.filter (fun t => !(t.id == id)) }) ∧
    (createFromCsvRow initialStore badChargingRow =
        .error ("Invalid enum value for VehicleVariant chargingType", leftoverStore) ∧
      leftoverStore.manufacturers ≠ initialStore.manufacturers) ∧
    (updateTrip sampleStore 1 badUpdatePatch =
        .error ("Invalid enum value for VehicleVariant chargingType", updateLeftoverStore) ∧
      updateLeftoverStore.manufacturers ≠ sampleStore.manufacturers) := by
  refine ⟨?_, ⟨rfl, by decide⟩, ⟨rfl, by decide⟩⟩
  intro s id e s' h
  unfold deleteTrip at h
  cases hf : s.trips.find? (fun t => t.id == id) with
  | none =>
    rw [hf] at h
    cases h
    exact Or.inl rfl
  | some deleted =>
    rw [hf] at h
    simp only [] at h
    cases hc : deleteCleanup
        { s with trips := s.trips.filter (fun t => !(t.id == id)) } deleted with
    | ok s2 => rw [hc] at h; simp at h
    | error e2 =>
      rw [hc] at h
      cases h
      exact Or.inr rfl

/-- A store whose only trip references a vehicleVariantId with no matching
VehicleVariant row, so the delete cleanup dereferences a missing included
relation and the transaction rolls back. -/
def danglingStore : Store := ⟨[], [], [], [⟨1, "X", "Y"⟩], [⟨1, 0, 10, 1, 1, 5, 1, 1⟩], 1, 1, 1, 2, 2⟩

/-- The state deleteTrip leaves on the dangling store: the trip row removed,
everything else untouched. -/
def danglingState : Store := { danglingStore with trips := [] }

/-- Witness for the amended C2: the deleteTrip conjunct applied to a concrete
store on which the cleanup fails; the failure state is the store with exactly
the trip row removed. -/
theorem writeOps_atomicity_amended_witness :
    danglingState = danglingStore ∨
    danglingState = { danglingStore with
      trips := danglingStore.trips.filter (fun t => !(t.id == 1)) } :=
  writeOps_atomicity_amended.1 danglingStore 1
    "TypeError: included vehicleVariant is null" danglingState rfl

/-! ## Cleanup stage lemmas -/

theorem cleanupVehicle_full (s : Store) (t : Trip) (v : VehicleVariant) (mo : VehicleModel)
    (e1 : s.trips.filter (fun x => x.vehicleVariantId == t.vehicleVariantId) = [])
    (hV : s.vehicleVariants.find? (fun x => x.id == t.vehicleVariantId) = some v)
    (e2 : (s.vehicleVariants.filter (fun x => !(x.id == t.vehicleVariantId))).filter
        (fun x => x.modelId == v.modelId) = [])
    (hM : s.vehicleModels.find? (fun x => x.id == v.modelId) = some mo)
    (e3 : (s.vehicleModels.filter (fun x => !(x.id == v.modelId))).filter
        (fun x => x.manufacturerId == mo.manufacturerId) = [])
    (hMan : s.manufacturers.any (fun x => x.id == mo.manufacturerId) = true) :
    cleanupVehicle s t = .ok { s with
      vehicleVariants := s.vehicleVariants.filter (fun x => !(x.id == t.vehicleVariantId)),
      vehicleModels := s.vehicleModels.filter (fun x => !(x.id == v.modelId)),
      manufacturers := s.manufacturers.filter (fun x => !(x.id == mo.manufacturerId)) } := by
  unfold cleanupVehicle
  rw [e1, hV]
  simp only [List.length_nil, beq_self_eq_true, if_true, e2, hM, e3, hMan]

theorem cleanupVehicle_skip (s : Store) (t : Trip)
    (e1 : s.trips.filter (fun x => x.vehicleVariantId == t.vehicleVariantId) ≠ []) :
    cleanupVehicle s t = .ok s := by
  unfold cleanupVehicle
  have hc : ((s.trips.filter (fun x => x.vehicleVariantId == t.vehicleVariantId)).length == 0)
      = false := by
    rw [beq_eq_false_iff_ne]
    intro hlen
    exact e1 (List.length_eq_zero.mp hlen)
  rw [hc]
  simp

theorem cleanupLocation_delete (s : Store) (locId : Nat)
    (e1 : s.trips.filter (fun x => x.originId == locId || x.destinationId == locId) = [])
    (he : s.locations.any (fun x => x.id == locId) = true) :
    cleanupLocation s locId =
      .ok { s with locations := s.locations.filter (fun x => !(x.id == locId)) } := by
  unfold cleanupLocation
  rw [e1, he]
  simp

theorem cleanupLocation_skip (s : Store) (locId : Nat)
    (e1 : s.trips.filter (fun x => x.originId == locId || x.destinationId == locId) ≠ []) :
    cleanupLocation s locId = .ok s := by
  unfold cleanupLocation
  have hc : ((s.trips.filter
      (fun x => x.originId == locId || x.destinationId == locId)).length == 0) = false := by
    rw [beq_eq_false_iff_ne]
    intro hlen
    exact e1 (List.length_eq_zero.mp hlen)
  rw [hc]
  simp

/-- C3: Delete cascade, full cleanup.  In a store where the deleted Trip is
the only trip referencing its VehicleVariant, that variant is the only one of
its VehicleModel, that model the only one of its Manufacturer, and the origin
and destination Locations are referenced by no other trip, deleteTrip removes
the Trip together with all five dependent rows; every reference count is
taken over the trip list with the Trip row already removed. -/
theorem deleteTrip_full_cleanup
    (s : Store) (id : Nat) (t : Trip) (v : VehicleVariant) (mo : VehicleModel)
    (hT : s.trips.find? (fun x => x.id == id) = some t)
    (hV : s.vehicleVariants.find? (fun x => x.id == t.vehicleVariantId) = some v)
    (hM : s.vehicleModels.find? (fun x => x.id == v.modelId) = some mo)
    (hMan : s.manufacturers.any (fun x => x.id == mo.manufacturerId) = true)
    (hO : s.locations.any (fun x => x.id == t.originId) = true)
    (hD : s.locations.any (fun x => x.id == t.destinationId) = true)
    (hOD : t.originId ≠ t.destinationId)
    (hOnlyTrip : ∀ x ∈ s.trips, x.vehicleVariantId = t.vehicleVariantId → x.id = id)
    (hOnlyVar : ∀ x ∈ s.vehicleVariants, x.modelId = v.modelId → x.id = v.id)
    (hOnlyMod : ∀ x ∈ s.vehicleModels, x.manufacturerId = mo.manufacturerId → x.id = mo.id)
    (hOFree : ∀ x ∈ s.trips, x.id ≠ id →
      x.originId ≠ t.originId ∧ x.destinationId ≠ t.originId)
    (hDFree : ∀ x ∈ s.trips, x.id ≠ id →
      x.originId ≠ t.destinationId ∧ x.destinationId ≠ t.destinationId) :
    deleteTrip s id = .ok
      { s with
          trips := s.trips.filter (fun x => !(x.id == id)),
          vehicleVariants := s.vehicleVariants.filter (fun x => !(x.id == t.vehicleVariantId)),
          vehicleModels := s.vehicleModels.filter (fun x => !(x.id == v.modelId)),
          manufacturers := s.manufacturers.filter (fun x => !(x.id == mo.manufacturerId)),
          locations := (s.locations.filter (fun x => !(x.id == t.originId))).filter
            (fun x => !(x.id == t.destinationId)) } := by
  have hvid : v.id = t.vehicleVariantId := by simpa using List.find?_some hV
  have hmid : mo.id = v.modelId := by simpa using List.find?_some hM
  have e1 : (s.trips.filter (fun x => !(x.id == id))).filter
      (fun x => x.vehicleVariantId == t.vehicleVariantId) = [] := by
    apply filter_eq_nil_of_none
    intro x hx
    rw [List.mem_filter] at hx
    obtain ⟨hxs, hxid⟩ := hx
    rw [Bool.not_eq_eq_eq_not, Bool.not_true, beq_eq_false_iff_ne] at hxid
    rw [beq_eq_false_iff_ne]
    intro hvv
    exact hxid (hOnlyTrip x hxs hvv)
  have e2 : (s.vehicleVariants.filter (fun x => !(x.id == t.vehicleVariantId))).filter
      (fun x => x.modelId == v.modelId) = [] := by
    apply filter_eq_nil_of_none
    intro x hx
    rw [List.mem_filter] at hx
    obtain ⟨hxs, hxid⟩ := hx
    rw [Bool.not_eq_eq_eq_not, Bool.not_true, beq_eq_false_iff_ne] at hxid
    rw [beq_eq_false_iff_ne]
    intro hmm
    exact hxid (hvid ▸ hOnlyVar x hxs hmm)
  have e3 : (s.vehicleModels.filter (fun x => !(x.id == v.modelId))).filter
      (fun x => x.manufacturerId == mo.manufacturerId) = [] := by
    apply filter_eq_nil_of_none
    intro x hx
    rw [List.mem_filter] at hx
    obtain ⟨hxs, hxid⟩ := hx
    rw [Bool.not_eq_eq_eq_not, Bool.not_true, beq_eq_false_iff_ne] at hxid
    rw [beq_eq_false_iff_ne]
    intro hmm
    exact hxid (hmid ▸ hOnlyMod x hxs hmm)
  have e4 : (s.trips.filter (fun x => !(x.id == id))).filter
      (fun x => x.originId == t.originId || x.destinationId == t.originId) = [] := by
    apply filter_eq_nil_of_none
    intro x hx
    rw [List.mem_filter] at hx
    obtain ⟨hxs, hxid⟩ := hx
    rw [Bool.not_eq_eq_eq_not, Bool.not_true, beq_eq_false_iff_ne] at hxid
    obtain ⟨ho1, ho2⟩ := hOFree x hxs hxid
    rw [Bool.or_eq_false_iff, beq_eq_false_iff_ne, beq_eq_false_iff_ne]
    exact ⟨ho1, ho2⟩
  have e5 : (s.trips.filter (fun x => !(x.id == id))).filter
      (fun x => x.originId == t.destinationId || x.destinationId == t.destinationId) = [] := by
    apply filter_eq_nil_of_none
    intro x hx
    rw [List.mem_filter] at hx
    obtain ⟨hxs, hxid⟩ := hx
    rw [Bool.not_eq_eq_eq_not, Bool.not_true, beq_eq_false_iff_ne] at hxid
    obtain ⟨hd1, hd2⟩ := hDFree x hxs hxid
    rw [Bool.or_eq_false_iff, beq_eq_false_iff_ne, beq_eq_false_iff_ne]
    exact ⟨hd1, hd2⟩
  have hDany : (s.locations.filter (fun x => !(x.id == t.originId))).any
      (fun x => x.id == t.destinationId) = true := by
    rw [List.any_eq_true] at hD ⊢
    obtain ⟨x, hxmem, hxeq⟩ := hD
    refine ⟨x, List.mem_filter.mpr ⟨hxmem, ?_⟩, hxeq⟩
    have hxd : x.id = t.destinationId := by simpa using hxeq
    rw [Bool.not_eq_eq_eq_not, Bool.not_true, beq_eq_false_iff_ne]
    rw [hxd]
    exact fun hcontra => hOD hcontra.symm
  have hveh := cleanupVehicle_full
    { s with trips := s.trips.filter (fun x => !(x.id == id)) } t v mo e1 hV e2 hM e3 hMan
  have horig := cleanupLocation_delete
    { s with
        trips := s.trips.filter (fun x => !(x.id == id)),
        vehicleVariants := s.vehicleVariants.filter (fun x => !(x.id == t.vehicleVariantId)),
        vehicleModels := s.vehicleModels.filter (fun x => !(x.id == v.modelId)),
        manufacturers := s.manufacturers.filter (fun x => !(x.id == mo.manufacturerId)) }
    t.originId e4 hO
  have hdest := cleanupLocation_delete
    { s with
        trips := s.trips.filter (fun x => !(x.id == id)),
        vehicleVariants := s.vehicleVariants.filter (fun x => !(x.id == t.vehicleVariantId)),
        vehicleModels := s.vehicleModels.filter (fun x => !(x.id == v.modelId)),
        manufacturers := s.manufacturers.filter (fun x => !(x.id == mo.manufacturerId)),
        locations := s.locations.filter (fun x => !(x.id == t.originId)) }
    t.destinationId e5 hDany
  unfold deleteTrip
  rw [hT]
  simp only [deleteCleanup, hveh, horig, hdest]

/-- Witness for C3: full cleanup on the concrete one-trip store; the trip,
variant, model, manufacturer and both locations are all removed, leaving the
empty tables (with the SERIAL sequences advanced). -/
theorem deleteTrip_full_cleanup_witness :
    deleteTrip sampleStore 1 = .ok ⟨[], [], [], [], [], 2, 2, 2, 3, 2⟩ :=
  deleteTrip_full_cleanup sampleStore 1 sampleTrip ⟨1, 1, 80, 463, "DC", 70157⟩
    ⟨1, 1, "iX3", "CROSSOVER", "MID_SIZE"⟩ rfl rfl rfl rfl rfl rfl (by decide) (by decide)
    (by decide) (by decide) (by decide) (by decide)

/-- C4: Delete cascade, shared preservation.  If another trip t2 shares the
deleted trip t1 in its VehicleVariant and its origin Location, and the
destination Location of t1 is referenced (as originId or destinationId) by no
remaining trip, then deleting t1 removes only the Trip row and the
destination Location of t1;
the VehicleVariant, VehicleModel and Manufacturer tables are untouched and
the shared origin Location remains in the store, because a Location is
deleted only when no remaining trip references it on either side. -/
theorem deleteTrip_shared_preservation
    (s : Store) (id : Nat) (t1 t2 : Trip)
    (hT : s.trips.find? (fun x => x.id == id) = some t1)
    (ht2 : t2 ∈ s.trips) (ht2id : t2.id ≠ id)
    (hshareV : t2.vehicleVariantId = t1.vehicleVariantId)
    (hshareO : t2.originId = t1.originId)
    (hDex : s.locations.any (fun x => x.id == t1.destinationId) = true)
    (hDFree : ∀ x ∈ s.trips, x.id ≠ id →
      x.originId ≠ t1.destinationId ∧ x.destinationId ≠ t1.destinationId) :
    deleteTrip s id = .ok { s with
      trips := s.trips.filter (fun x => !(x.id == id)),
      locations := s.locations.filter (fun x => !(x.id == t1.destinationId)) } ∧
    (∀ x ∈ s.locations, x.id = t1.originId →
      x ∈ (s.locations.filter (fun x => !(x.id == t1.destinationId)))) := by
  have hOnotD : t1.originId ≠ t1.destinationId := by
    have := (hDFree t2 ht2 ht2id).1
    rw [hshareO] at this
    exact this
  have ht2f : t2 ∈ s.trips.filter (fun x => !(x.id == id)) :=
    List.mem_filter.mpr ⟨ht2, by simp [ht2id]⟩
  have hvne : (s.trips.filter (fun x => !(x.id == id))).filter
      (fun x => x.vehicleVariantId == t1.vehicleVariantId) ≠ [] := by
    intro hnil
    have hmem : t2 ∈ (s.trips.filter (fun x => !(x.id == id))).filter
        (fun x => x.vehicleVariantId == t1.vehicleVariantId) :=
      List.mem_filter.mpr ⟨ht2f, by simp [hshareV]⟩
    rw [hnil] at hmem
    exact absurd hmem (List.not_mem_nil t2)
  have hone : (s.trips.filter (fun x => !(x.id == id))).filter
      (fun x => x.originId == t1.originId || x.destinationId == t1.originId) ≠ [] := by
    intro hnil
    have hmem : t2 ∈ (s.trips.filter (fun x => !(x.id == id))).filter
        (fun x => x.originId == t1.originId || x.destinationId == t1.originId) :=
      List.mem_filter.mpr ⟨ht2f, by simp [hshareO]⟩
    rw [hnil] at hmem
    exact absurd hmem (List.not_mem_nil t2)
  have e5 : (s.trips.filter (fun x => !(x.id == id))).filter
      (fun x => x.originId == t1.destinationId || x.destinationId == t1.destinationId) = [] := by
    apply filter_eq_nil_of_none
    intro x hx
    rw [List.mem_filter] at hx
    obtain ⟨hxs, hxid⟩ := hx
    rw [Bool.not_eq_eq_eq_not, Bool.not_true, beq_eq_false_iff_ne] at hxid
    obtain ⟨hd1, hd2⟩ := hDFree x hxs hxid
    rw [Bool.or_eq_false_iff, beq_eq_false_iff_ne, beq_eq_false_iff_ne]
    exact ⟨hd1, hd2⟩
  have hveh := cleanupVehicle_skip
    { s with trips := s.trips.filter (fun x => !(x.id == id)) } t1 hvne
  have horig := cleanupLocation_skip
    { s with trips := s.trips.filter (fun x => !(x.id == id)) } t1.originId hone
  have hdest := cleanupLocation_delete
    { s with trips := s.trips.filter (fun x => !(x.id == id)) } t1.destinationId e5 hDex
  constructor
  · unfold deleteTrip
    rw [hT]
    simp only [deleteCleanup, hveh, horig, hdest]
  · intro x hxmem hxid
    refine List.mem_filter.mpr ⟨hxmem, ?_⟩
    rw [Bool.not_eq_eq_eq_not, Bool.not_true, beq_eq_false_iff_ne]
    rw [hxid]
    exact hOnotD

/-- Second trip of the shared-preservation scenario: same variant and origin
as sampleTrip, destination Rabat (location 3). -/
def sharedTrip2 : Trip := ⟨2, 1739232000000, 300, 58, 350, 1, 1, 3⟩

/-- Store with two trips sharing the variant and the origin but with distinct
destinations, each destination referenced by no other trip. -/
def sharedStore : Store :=
  ⟨[⟨1, "BMW Group"⟩],
   [⟨1, 1, "iX3", "CROSSOVER", "MID_SIZE"⟩],
   [⟨1, 1, 80, 463, "DC", 70157⟩],
   [⟨1, "New York", "United States"⟩, ⟨2, "Casablanca", "Morocco"⟩, ⟨3, "Rabat", "Morocco"⟩],
   [sampleTrip, sharedTrip2], 2, 2, 2, 4, 3⟩

/-- Witness for C4: deleting the second trip of the concrete two-trip store
removes only that trip and its own destination (Rabat); the variant, model,
manufacturer and the shared origin remain. -/
theorem deleteTrip_shared_preservation_witness :
    deleteTrip sharedStore 2 = .ok
      ⟨[⟨1, "BMW Group"⟩],
       [⟨1, 1, "iX3", "CROSSOVER", "MID_SIZE"⟩],
       [⟨1, 1, 80, 463, "DC", 70157⟩],
       [⟨1, "New York", "United States"⟩, ⟨2, "Casablanca", "Morocco"⟩],
       [sampleTrip], 2, 2, 2, 4, 3⟩ ∧
    (∀ x ∈ sharedStore.locations, x.id = sharedTrip2.originId →
      x ∈ (sharedStore.locations.filter (fun x => !(x.id == sharedTrip2.destinationId)))) :=
  deleteTrip_shared_preservation sharedStore 2 sharedTrip2 sampleTrip rfl (by decide)
    (by decide) (by decide) (by decide) rfl (by decide)

/-! ## Update phase lemmas -/

theorem vehiclePhase_not_touched {s : Store} {patch : TripUpdateDTO}
    {curVariant? : Option VehicleVariant} {curModel? : Option VehicleModel}
    {curManufacturer? : Option Manufacturer}
    (h : touchesVehicle patch = false) :
    vehiclePhase s patch curVariant? curModel? curManufacturer? = .ok (none, s) := by
  unfold vehiclePhase
  rw [h]
  simp

theorem locationPhase_not_touched {s : Store} {cityPatch countryPatch : Option String}
    {curLoc? : Option Location}
    (h : (isTruthyStr cityPatch || isTruthyStr countryPatch) = false) :
    locationPhase s cityPatch countryPatch curLoc? = .ok (none, s) := by
  unfold locationPhase
  rw [h]
  simp

/-- Patch whose string fields are all present but empty, numeric fields
absent. -/
def allEmptyStringPatch : TripUpdateDTO :=
  { trip_date := some "", manufacturer := some "", model := some "", body_type := some "",
    segment := some "", charging_type := some "", origin_city := some "",
    origin_country := some "", destination_city := some "", destination_country := some "" }

/-- Patch with every field absent. -/
def allAbsentPatch : TripUpdateDTO := {}

/-- C9: empty-string patch fields act as absent.  Because every presence test
on string fields uses JavaScript truthiness and the empty string is falsy, a
patch carrying only empty strings triggers no vehicle-chain or location
recomputation and parses no date; updateTrip returns the trip unchanged and
leaves the store unchanged, exactly as the all-absent patch does. -/
theorem updateTrip_emptyString_as_absent (s : Store) (id : Nat) (current : Trip)
    (hT : s.trips.find? (fun x => x.id == id) = some current) :
    updateTrip s id allEmptyStringPatch = .ok (current, s) ∧
    updateTrip s id allAbsentPatch = .ok (current, s) := by
  constructor
  · unfold updateTrip
    rw [hT]
    simp only []
    rw [vehiclePhase_not_touched (show touchesVehicle allEmptyStringPatch = false from rfl)]
    simp only []
    rw [locationPhase_not_touched (show (isTruthyStr allEmptyStringPatch.origin_city ||
      isTruthyStr allEmptyStringPatch.origin_country) = false from rfl)]
    simp only []
    rw [locationPhase_not_touched (show (isTruthyStr allEmptyStringPatch.destination_city ||
      isTruthyStr allEmptyStringPatch.destination_country) = false from rfl)]
    simp only []
    have happ : ∀ t : Trip, applyTripPatch allEmptyStringPatch none none none none t = t :=
      fun t => rfl
    rw [show parsePatchTripDate allEmptyStringPatch = Except.ok (none : Option Int) from rfl]
    simp only [happ, ite_self]
    simp
  · unfold updateTrip
    rw [hT]
    simp only []
    rw [vehiclePhase_not_touched (show touchesVehicle allAbsentPatch = false from rfl)]
    simp only []
    rw [locationPhase_not_touched (show (isTruthyStr allAbsentPatch.origin_city ||
      isTruthyStr allAbsentPatch.origin_country) = false from rfl)]
    simp only []
    rw [locationPhase_not_touched (show (isTruthyStr allAbsentPatch.destination_city ||
      isTruthyStr allAbsentPatch.destination_country) = false from rfl)]
    simp only []
    have happ : ∀ t : Trip, applyTripPatch allAbsentPatch none none none none t = t :=
      fun t => rfl
    rw [show parsePatchTripDate allAbsentPatch = Except.ok (none : Option Int) from rfl]
    simp only [happ, ite_self]
    simp

/-- Witness for C9: both the all-empty-string patch and the all-absent patch
leave the concrete one-trip store untouched. -/
theorem updateTrip_emptyString_as_absent_witness :
    updateTrip sampleStore 1 allEmptyStringPatch = .ok (sampleTrip, sampleStore) ∧
    updateTrip sampleStore 1 allAbsentPatch = .ok (sampleTrip, sampleStore) :=
  updateTrip_emptyString_as_absent sampleStore 1 sampleTrip rfl

theorem upsertVehicleModelUpdatePath_self (s : Store) (manufacturerId : Nat) (m : VehicleModel)
    (hbt : bodyTypeValues.contains m.bodyType = true)
    (hsg : segmentValues.contains m.segment = true)
    (hf : s.vehicleModels.find? (modelKeyMatch manufacturerId m.name) = some m) :
    upsertVehicleModelUpdatePath s manufacturerId m.name m.bodyType m.segment =
      .ok (m, { s with vehicleModels := s.vehicleModels.map (fun x =>
        if modelKeyMatch manufacturerId m.name x then
          { x with bodyType := m.bodyType, segment := m.segment } else x) }) := by
  unfold upsertVehicleModelUpdatePath
  rw [hbt, hsg]
  simp only [Bool.and_self, if_true, hf]

theorem upsertVehicleVariant_update (s : Store) (modelId : Nat) (batteryKwh rangeKm : Int)
    (chargingType : String) (priceEur : Int) (v : VehicleVariant)
    (hv : chargingTypeValues.contains chargingType = true)
    (hf : s.vehicleVariants.find? (variantKeyMatch modelId batteryKwh rangeKm chargingType)
      = some v) :
    upsertVehicleVariant s modelId batteryKwh rangeKm chargingType priceEur =
      .ok ({ v with priceEur := priceEur },
        { s with vehicleVariants := s.vehicleVariants.map (fun x =>
          if variantKeyMatch modelId batteryKwh rangeKm chargingType x then
            { x with priceEur := priceEur } else x) }) := by
  unfold upsertVehicleVariant
  rw [hv]
  simp only [if_true, hf]

theorem upsertVehicleVariant_create (s : Store) (modelId : Nat) (batteryKwh rangeKm : Int)
    (chargingType : String) (priceEur : Int)
    (hv : chargingTypeValues.contains chargingType = true)
    (hf : s.vehicleVariants.find? (variantKeyMatch modelId batteryKwh rangeKm chargingType)
      = none) :
    upsertVehicleVariant s modelId batteryKwh rangeKm chargingType priceEur =
      .ok (⟨s.nextVariantId, modelId, batteryKwh, rangeKm, chargingType, priceEur⟩,
        { s with
            vehicleVariants := s.vehicleVariants ++
              [⟨s.nextVariantId, modelId, batteryKwh, rangeKm, chargingType, priceEur⟩],
            nextVariantId := s.nextVariantId + 1 }) := by
  unfold upsertVehicleVariant
  rw [hv]
  simp only [if_true, hf]

/-- C5: Update relinking.  Against a well-formed store (the current chain rows
exist, resolve to themselves by natural key, carry valid enum values and
non-zero ids):
a patch containing only price_eur re-resolves the chain from the current
names and specs, overwrites the price on the existing VehicleVariant and
leaves the vehicleVariantId of the trip unchanged with no new variant row;
whereas a patch changing battery_kwh to a spec combination not present in the
store creates a new VehicleVariant (under the fresh SERIAL id) and changes
the vehicleVariantId of the trip, leaving the previously linked variant row in
place. -/
theorem updateTrip_relinking
    (s : Store) (id : Nat) (current : Trip) (curVariant : VehicleVariant)
    (curModel : VehicleModel) (curManufacturer : Manufacturer) (p newBattery : Int)
    (hT : s.trips.find? (fun x => x.id == id) = some current)
    (hCurV : s.vehicleVariants.find? (fun v => v.id == current.vehicleVariantId) = some curVariant)
    (hCurM : s.vehicleModels.find? (fun m => m.id == curVariant.modelId) = some curModel)
    (hCurMan : s.manufacturers.find? (fun x => x.id == curModel.manufacturerId)
      = some curManufacturer)
    (hFindMan : s.manufacturers.find? (fun x => x.name == curManufacturer.name)
      = some curManufacturer)
    (hFindMod : s.vehicleModels.find? (modelKeyMatch curManufacturer.id curModel.name)
      = some curModel)
    (hbt : bodyTypeValues.contains curModel.bodyType = true)
    (hsg : segmentValues.contains curModel.segment = true)
    (hcc : chargingTypeValues.contains curVariant.chargingType = true)
    (hvz : curVariant.id ≠ 0)
    (hnz : s.nextVariantId ≠ 0)
    (hfresh : s.nextVariantId ≠ current.vehicleVariantId)
    (hFindVar : s.vehicleVariants.find? (variantKeyMatch curModel.id curVariant.batteryKwh
      curVariant.rangeKm curVariant.chargingType) = some curVariant)
    (hNoVar : s.vehicleVariants.find? (variantKeyMatch curModel.id newBattery
      curVariant.rangeKm curVariant.chargingType) = none) :
    (∃ t' s', updateTrip s id { price_eur := some p } = .ok (t', s') ∧
      t'.vehicleVariantId = current.vehicleVariantId ∧
      s'.vehicleVariants.length = s.vehicleVariants.length ∧
      { curVariant with priceEur := p } ∈ s'.vehicleVariants) ∧
    (∃ t' s', updateTrip s id { battery_kwh := some newBattery } = .ok (t', s') ∧
      t'.vehicleVariantId = s.nextVariantId ∧
      t'.vehicleVariantId ≠ current.vehicleVariantId ∧
      s'.vehicleVariants.length = s.vehicleVariants.length + 1 ∧
      curVariant ∈ s'.vehicleVariants) := by
  have hcv : curVariant.id = current.vehicleVariantId := by simpa using List.find?_some hCurV
  constructor
  · have hvp : vehiclePhase s ({ price_eur := some p } : TripUpdateDTO) (some curVariant)
        (some curModel) (some curManufacturer) =
        .ok (some curVariant.id,
          { s with
              vehicleModels := s.vehicleModels.map (fun x =>
                if modelKeyMatch curManufacturer.id curModel.name x then
                  { x with bodyType := curModel.bodyType, segment := curModel.segment } else x),
              vehicleVariants := s.vehicleVariants.map (fun x =>
                if variantKeyMatch curModel.id curVariant.batteryKwh curVariant.rangeKm
                    curVariant.chargingType x then { x with priceEur := p } else x) }) := by
      unfold vehiclePhase
      rw [show touchesVehicle ({ price_eur := some p } : TripUpdateDTO) = true from rfl]
      simp only [if_true, Option.getD_none, Option.getD_some,
        show chosenBodyType ({ price_eur := some p } : TripUpdateDTO) curModel
          = curModel.bodyType from rfl,
        show chosenSegment ({ price_eur := some p } : TripUpdateDTO) curModel
          = curModel.segment from rfl,
        show chosenChargingType ({ price_eur := some p } : TripUpdateDTO) curVariant
          = curVariant.chargingType from rfl]
      rw [upsertManufacturer_found hFindMan]
      simp only []
      rw [upsertVehicleModelUpdatePath_self s curManufacturer.id curModel hbt hsg hFindMod]
      simp only []
      rw [upsertVehicleVariant_update
        { s with vehicleModels := s.vehicleModels.map (fun x =>
            if modelKeyMatch curManufacturer.id curModel.name x then
              { x with bodyType := curModel.bodyType, segment := curModel.segment } else x) }
        curModel.id curVariant.batteryKwh curVariant.rangeKm curVariant.chargingType p
        curVariant hcc hFindVar]
    unfold updateTrip
    rw [hT]
    simp only []
    rw [hCurV]
    simp only [Option.bind]
    rw [hCurM]
    simp only [Option.bind]
    rw [hCurMan]
    rw [hvp]
    simp only []
    rw [locationPhase_not_touched (show (isTruthyStr
        ({ price_eur := some p } : TripUpdateDTO).origin_city ||
      isTruthyStr ({ price_eur := some p } : TripUpdateDTO).origin_country) = false from rfl)]
    simp only []
    rw [locationPhase_not_touched (show (isTruthyStr
        ({ price_eur := some p } : TripUpdateDTO).destination_city ||
      isTruthyStr ({ price_eur := some p } : TripUpdateDTO).destination_country)
        = false from rfl)]
    simp only [show ({ price_eur := some p } : TripUpdateDTO).trip_date = none from rfl]
    refine ⟨_, _, rfl, ?_, ?_, ?_⟩
    · show (if isTruthyNat (some curVariant.id) then curVariant.id
        else current.vehicleVariantId) = current.vehicleVariantId
      rw [if_pos (by simp [isTruthyNat, hvz])]
      exact hcv
    · show (s.vehicleVariants.map _).length = s.vehicleVariants.length
      exact List.length_map _ _
    · show ({ curVariant with priceEur := p }) ∈ s.vehicleVariants.map _
      refine List.mem_map.mpr ⟨curVariant, List.mem_of_find?_eq_some hFindVar, ?_⟩
      rw [if_pos (List.find?_some hFindVar)]
  · have hvp : vehiclePhase s ({ battery_kwh := some newBattery } : TripUpdateDTO)
        (some curVariant) (some curModel) (some curManufacturer) =
        .ok (some s.nextVariantId,
          { s with
              vehicleModels := s.vehicleModels.map (fun x =>
                if modelKeyMatch curManufacturer.id curModel.name x then
                  { x with bodyType := curModel.bodyType, segment := curModel.segment } else x),
              vehicleVariants := s.vehicleVariants ++
                [⟨s.nextVariantId, curModel.id, newBattery, curVariant.rangeKm,
                  curVariant.chargingType, curVariant.priceEur⟩],
              nextVariantId := s.nextVariantId + 1 }) := by
      unfold vehiclePhase
      rw [show touchesVehicle ({ battery_kwh := some newBattery } : TripUpdateDTO)
        = true from rfl]
      simp only [if_true, Option.getD_none, Option.getD_some,
        show chosenBodyType ({ battery_kwh := some newBattery } : TripUpdateDTO) curModel
          = curModel.bodyType from rfl,
        show chosenSegment ({ battery_kwh := some newBattery } : TripUpdateDTO) curModel
          = curModel.segment from rfl,
        show chosenChargingType ({ battery_kwh := some newBattery } : TripUpdateDTO) curVariant
          = curVariant.chargingType from rfl]
      rw [upsertManufacturer_found hFindMan]
      simp only []
      rw [upsertVehicleModelUpdatePath_self s curManufacturer.id curModel hbt hsg hFindMod]
      simp only []
      rw [upsertVehicleVariant_create
        { s with vehicleModels := s.vehicleModels.map (fun x =>
            if modelKeyMatch curManufacturer.id curModel.name x then
              { x with bodyType := curModel.bodyType, segment := curModel.segment } else x) }
        curModel.id newBattery curVariant.rangeKm curVariant.chargingType
        curVariant.priceEur hcc hNoVar]
    unfold updateTrip
    rw [hT]
    simp only []
    rw [hCurV]
    simp only [Option.bind]
    rw [hCurM]
    simp only [Option.bind]
    rw [hCurMan]
    rw [hvp]
    simp only []
    rw [locationPhase_not_touched (show (isTruthyStr
        ({ battery_kwh := some newBattery } : TripUpdateDTO).origin_city ||
      isTruthyStr ({ battery_kwh := some newBattery } : TripUpdateDTO).origin_country)
        = false from rfl)]
    simp only []
    rw [locationPhase_not_touched (show (isTruthyStr
        ({ battery_kwh := some newBattery } : TripUpdateDTO).destination_city ||
      isTruthyStr ({ battery_kwh := some newBattery } : TripUpdateDTO).destination_country)
        = false from rfl)]
    simp only [show ({ battery_kwh := some newBattery } : TripUpdateDTO).trip_date
      = none from rfl]
    refine ⟨_, _, rfl, ?_, ?_, ?_, ?_⟩
    · show (if isTruthyNat (some s.nextVariantId) then s.nextVariantId
        else current.vehicleVariantId) = s.nextVariantId
      rw [if_pos (by simp [isTruthyNat, hnz])]
    · show (if isTruthyNat (some s.nextVariantId) then s.nextVariantId
        else current.vehicleVariantId) ≠ current.vehicleVariantId
      rw [if_pos (by simp [isTruthyNat, hnz])]
      exact hfresh
    · show (s.vehicleVariants ++ _).length = s.vehicleVariants.length + 1
      simp
    · show curVariant ∈ s.vehicleVariants ++ _
      exact List.mem_append.mpr (Or.inl (List.mem_of_find?_eq_some hCurV))

theorem upsertVehicleModelUpdatePath_found {s : Store} {manufacturerId : Nat}
    {name bodyType segment : String} {m : VehicleModel}
    (hval : (bodyTypeValues.contains bodyType && segmentValues.contains segment) = true)
    (hf : s.vehicleModels.find? (modelKeyMatch manufacturerId name) = some m) :
    upsertVehicleModelUpdatePath s manufacturerId name bodyType segment =
      .ok ({ m with bodyType := bodyType, segment := segment },
        { s with vehicleModels := s.vehicleModels.map (fun x =>
          if modelKeyMatch manufacturerId name x then
            { x with bodyType := bodyType, segment := segment } else x) }) := by
  unfold upsertVehicleModelUpdatePath
  rw [hval]
  simp only [if_true, hf]

theorem upsertVehicleModelUpdatePath_frame {s s' : Store} {manufacturerId : Nat}
    {name bodyType segment : String} {m : VehicleModel}
    (h : upsertVehicleModelUpdatePath s manufacturerId name bodyType segment = .ok (m, s')) :
    s'.manufacturers = s.manufacturers ∧ s'.vehicleVariants = s.vehicleVariants ∧
    s'.locations = s.locations ∧ s'.trips = s.trips ∧
    s'.nextManufacturerId = s.nextManufacturerId ∧ s'.nextVariantId = s.nextVariantId ∧
    s'.nextLocationId = s.nextLocationId ∧ s'.nextTripId = s.nextTripId := by
  unfold upsertVehicleModelUpdatePath at h
  cases hv : bodyTypeValues.contains bodyType && segmentValues.contains segment with
  | false => rw [hv] at h; simp at h
  | true =>
    rw [hv] at h
    simp only [if_true] at h
    cases hf : s.vehicleModels.find? (modelKeyMatch manufacturerId name) with
    | some m0 => rw [hf] at h; cases h; exact ⟨rfl, rfl, rfl, rfl, rfl, rfl, rfl, rfl⟩
    | none => rw [hf] at h; cases h; exact ⟨rfl, rfl, rfl, rfl, rfl, rfl, rfl, rfl⟩

theorem vehiclePhase_frame {s s' : Store} {patch : TripUpdateDTO}
    {curVariant? : Option VehicleVariant} {curModel? : Option VehicleModel}
    {curManufacturer? : Option Manufacturer} {r : Option Nat}
    (h : vehiclePhase s patch curVariant? curModel? curManufacturer? = .ok (r, s')) :
    s'.locations = s.locations ∧ s'.trips = s.trips ∧
    s'.nextLocationId = s.nextLocationId ∧ s'.nextTripId = s.nextTripId := by
  unfold vehiclePhase at h
  cases htv : touchesVehicle patch with
  | false =>
    rw [htv] at h
    simp only [if_false] at h
    cases h
    exact ⟨rfl, rfl, rfl, rfl⟩
  | true =>
    rw [htv] at h
    simp only [if_true] at h
    cases curVariant? with
    | none => cases curModel? <;> cases curManufacturer? <;> simp at h
    | some curVariant =>
      cases curModel? with
      | none => cases curManufacturer? <;> simp at h
      | some curModel =>
        cases curManufacturer? with
        | none => simp at h
        | some curManufacturer =>
          simp only [] at h
          rcases hman : upsertManufacturer s (patch.manufacturer.getD curManufacturer.name)
            with ⟨man, s1⟩
          rw [hman] at h
          simp only [] at h
          cases hmod : upsertVehicleModelUpdatePath s1 man.id (patch.model.getD curModel.name)
              (chosenBodyType patch curModel) (chosenSegment patch curModel) with
          | error err => rw [hmod] at h; simp at h
          | ok pr =>
            rcases pr with ⟨model, s2⟩
            rw [hmod] at h
            simp only [] at h
            cases hvar : upsertVehicleVariant s2 model.id
                (patch.battery_kwh.getD curVariant.batteryKwh)
                (patch.range_km.getD curVariant.rangeKm)
                (chosenChargingType patch curVariant)
                (patch.price_eur.getD curVariant.priceEur) with
            | error err => rw [hvar] at h; simp at h
            | ok pr2 =>
              rcases pr2 with ⟨variant, s3⟩
              rw [hvar] at h
              cases h
              obtain ⟨-, -, f1l, f1t, -, -, f1nl, f1nt⟩ := upsertManufacturer_frame hman
              obtain ⟨-, -, f2l, f2t, -, -, f2nl, f2nt⟩ := upsertVehicleModelUpdatePath_frame hmod
              obtain ⟨-, -, f3l, f3t, -, -, f3nl, f3nt⟩ := upsertVehicleVariant_frame hvar
              exact ⟨by rw [f3l, f2l, f1l], by rw [f3t, f2t, f1t],
                by rw [f3nl, f2nl, f1nl], by rw [f3nt, f2nt, f1nt]⟩

theorem upsertLocation_result {s s' : Store} {city country : String} {loc : Location}
    (h : upsertLocation s city country = (loc, s')) :
    loc ∈ s'.locations ∧ loc.city = city ∧ loc.country = country := by
  have hf := upsertLocation_post h
  have hck : loc.city = city ∧ loc.country = country := by simpa using List.find?_some hf
  exact ⟨List.mem_of_find?_eq_some hf, hck.1, hck.2⟩

theorem upsertLocation_src {s s' : Store} {city country : String} {loc : Location}
    (h : upsertLocation s city country = (loc, s')) :
    loc ∈ s.locations ∨ loc.id = s.nextLocationId := by
  unfold upsertLocation at h
  cases hf : s.locations.find? (fun x => x.city == city && x.country == country) with
  | some l0 =>
    rw [hf] at h
    cases h
    exact Or.inl (List.mem_of_find?_eq_some hf)
  | none =>
    rw [hf] at h
    cases h
    exact Or.inr rfl

theorem locationPhase_hit {s s' : Store} {cityPatch countryPatch : Option String}
    {curLoc : Location} {r : Option Nat}
    (htr : (isTruthyStr cityPatch || isTruthyStr countryPatch) = true)
    (h : locationPhase s cityPatch countryPatch (some curLoc) = .ok (r, s')) :
    ∃ loc, loc ∈ s'.locations ∧ r = some loc.id ∧
      loc.city = cityPatch.getD curLoc.city ∧ loc.country = countryPatch.getD curLoc.country ∧
      (loc ∈ s.locations ∨ loc.id = s.nextLocationId) := by
  unfold locationPhase at h
  rw [htr] at h
  simp only [if_true] at h
  rcases hu : upsertLocation s (cityPatch.getD curLoc.city) (countryPatch.getD curLoc.country)
    with ⟨loc, s1⟩
  rw [hu] at h
  simp only [] at h
  cases h
  obtain ⟨hm, hc, hk⟩ := upsertLocation_result hu
  exact ⟨loc, hm, rfl, hc, hk, upsertLocation_src hu⟩

theorem locationPhase_frame {s s' : Store} {cityPatch countryPatch : Option String}
    {curLoc? : Option Location} {r : Option Nat}
    (h : locationPhase s cityPatch countryPatch curLoc? = .ok (r, s')) :
    s'.manufacturers = s.manufacturers ∧ s'.vehicleModels = s.vehicleModels ∧
    s'.vehicleVariants = s.vehicleVariants ∧ s'.trips = s.trips ∧
    (∃ tail, s'.locations = s.locations ++ tail) ∧
    ((∀ l ∈ s.locations, l.id ≠ 0) → s.nextLocationId ≠ 0 →
      (∀ l ∈ s'.locations, l.id ≠ 0) ∧ s'.nextLocationId ≠ 0) := by
  unfold locationPhase at h
  cases htr : (isTruthyStr cityPatch || isTruthyStr countryPatch) with
  | false =>
    rw [htr] at h
    simp only [if_false] at h
    cases h
    exact ⟨rfl, rfl, rfl, rfl, ⟨[], by simp⟩, fun h1 h2 => ⟨h1, h2⟩⟩
  | true =>
    rw [htr] at h
    simp only [if_true] at h
    cases curLoc? with
    | none => simp at h
    | some curLoc =>
      simp only [] at h
      rcases hu : upsertLocation s (cityPatch.getD curLoc.city)
          (countryPatch.getD curLoc.country) with ⟨loc, s1⟩
      rw [hu] at h
      simp only [] at h
      cases h
      obtain ⟨g1, g2, g3, g4, -, -, -, -⟩ := upsertLocation_frame hu
      refine ⟨g1, g2, g3, g4, upsertLocation_extends hu, ?_⟩
      intro h1 h2
      unfold upsertLocation at hu
      cases hf : s.locations.find? (fun x => x.city == (cityPatch.getD curLoc.city) &&
          x.country == (countryPatch.getD curLoc.country)) with
      | some l0 =>
        rw [hf] at hu
        cases hu
        exact ⟨h1, h2⟩
      | none =>
        rw [hf] at hu
        cases hu
        constructor
        · intro l hl
          rcases List.mem_append.mp hl with hl1 | hl2
          · exact h1 l hl1
          · rw [List.mem_singleton] at hl2
            rw [hl2]
            exact h2
        · exact Nat.succ_ne_zero _

/-- Witness for C5: on the concrete one-trip store, a price-only patch keeps
vehicleVariantId 1 and updates the price in place, while a battery patch to
90 kWh creates variant 2 and relinks the trip to it, leaving variant 1 in the
store. -/
theorem updateTrip_relinking_witness :
    (∃ t' s', updateTrip sampleStore 1 { price_eur := some 999 } = .ok (t', s') ∧
      t'.vehicleVariantId = sampleTrip.vehicleVariantId ∧
      s'.vehicleVariants.length = sampleStore.vehicleVariants.length ∧
      ({ (⟨1, 1, 80, 463, "DC", 70157⟩ : VehicleVariant) with priceEur := 999 })
        ∈ s'.vehicleVariants) ∧
    (∃ t' s', updateTrip sampleStore 1 { battery_kwh := some 90 } = .ok (t', s') ∧
      t'.vehicleVariantId = sampleStore.nextVariantId ∧
      t'.vehicleVariantId ≠ sampleTrip.vehicleVariantId ∧
      s'.vehicleVariants.length = sampleStore.vehicleVariants.length + 1 ∧
      (⟨1, 1, 80, 463, "DC", 70157⟩ : VehicleVariant) ∈ s'.vehicleVariants) :=
  updateTrip_relinking sampleStore 1 sampleTrip ⟨1, 1, 80, 463, "DC", 70157⟩
    ⟨1, 1, "iX3", "CROSSOVER", "MID_SIZE"⟩ ⟨1, "BMW Group"⟩ 999 90
    rfl rfl rfl rfl rfl rfl rfl rfl rfl (by decide) (by decide) (by decide) rfl rfl

/-- Patch that only renames the model, onto a name that another existing
model of the same manufacturer already carries. -/
def m2Patch : TripUpdateDTO := { model := some "M2" }

/-- Store with two models under one manufacturer: the iX3 (linked to the
sample trip through variant 1) and an M2 with body type SUV and segment
COMPACT, not referenced by any variant. -/
def c8Store : Store :=
  ⟨[⟨1, "BMW Group"⟩],
   [⟨1, 1, "iX3", "CROSSOVER", "MID_SIZE"⟩, ⟨2, 1, "M2", "SUV", "COMPACT"⟩],
   [⟨1, 1, 80, 463, "DC", 70157⟩],
   [⟨1, "New York", "United States"⟩, ⟨2, "Casablanca", "Morocco"⟩],
   [sampleTrip], 2, 3, 2, 3, 2⟩

/-- Trip after the rename patch: relinked to the fresh variant 2 under the M2
model. -/
def c8Trip : Trip := ⟨1, 1739145600000, 5813, 58, 350, 2, 1, 2⟩

/-- Store after the rename patch: the M2 row has its bodyType and segment
overwritten with the values backfilled from the old iX3 model, and a fresh
variant under M2 carries the old specs. -/
def c8After : Store :=
  { c8Store with
      vehicleModels := [⟨1, 1, "iX3", "CROSSOVER", "MID_SIZE"⟩,
        ⟨2, 1, "M2", "CROSSOVER", "MID_SIZE"⟩],
      vehicleVariants := [⟨1, 1, 80, 463, "DC", 70157⟩, ⟨2, 2, 80, 463, "DC", 70157⟩],
      trips := [c8Trip],
      nextVariantId := 3 }

/-- C8 counterexample: the update-path half of the claim, bodyType and
segment of an existing VehicleModel are overwritten only when explicitly
supplied in the patch, is false.  The patch supplies neither body_type nor
segment, only a model rename onto the existing M2 row; yet updateTrip
overwrites that row from SUV/COMPACT to CROSSOVER/MID_SIZE, the values
backfilled from the trip’s old model. -/
theorem vehicleModel_overwrite_counterexample :
    m2Patch.body_type = none ∧ m2Patch.segment = none ∧
    c8Store.vehicleModels.find? (fun m => m.id == 2)
      = some ⟨2, 1, "M2", "SUV", "COMPACT"⟩ ∧
    updateTrip c8Store 1 m2Patch = .ok (c8Trip, c8After) ∧
    c8After.vehicleModels.find? (fun m => m.id == 2)
      = some ⟨2, 1, "M2", "CROSSOVER", "MID_SIZE"⟩ :=
  ⟨rfl, rfl, rfl, rfl, rfl⟩

/-- C8 (amended): on the create path, a createFromCsvRow that resolves an
already existing VehicleModel (by manufacturer name and model name) leaves
the VehicleModel table completely unchanged, whatever body type and segment
the row carries.  On the update path, whenever the vehicle chain is
recomputed and the merged (manufacturer, model) natural key resolves to an
existing VehicleModel, that row is always overwritten with the chosen body
type and segment: the normalized patch values when explicitly supplied, and
otherwise the values backfilled from the current model of the trip — even
when the resolved row is a different model than the one the trip was linked
to. -/
theorem vehicleModel_overwrite_amended :
    (∀ (s : Store) (row : TripCreateDTO) (man : Manufacturer) (m : VehicleModel)
        (t : Trip) (s' : Store),
      s.manufacturers.find? (fun x => x.name == row.manufacturer) = some man →
      s.vehicleModels.find? (modelKeyMatch man.id row.model) = some m →
      createFromCsvRow s row = .ok (t, s') →
      s'.vehicleModels = s.vehicleModels) ∧
    (∀ (s : Store) (id : Nat) (patch : TripUpdateDTO) (current : Trip)
        (curVariant : VehicleVariant) (curModel : VehicleModel)
        (curManufacturer man : Manufacturer) (m0 : VehicleModel) (t' : Trip) (s' : Store),
      s.trips.find? (fun x => x.id == id) = some current →
      s.vehicleVariants.find? (fun v => v.id == current.vehicleVariantId) = some curVariant →
      s.vehicleModels.find? (fun m => m.id == curVariant.modelId) = some curModel →
      s.manufacturers.find? (fun x => x.id == curModel.manufacturerId) = some curManufacturer →
      touchesVehicle patch = true →
      s.manufacturers.find?
        (fun x => x.name == patch.manufacturer.getD curManufacturer.name) = some man →
      s.vehicleModels.find? (modelKeyMatch man.id (patch.model.getD curModel.name))
        = some m0 →
      updateTrip s id patch = .ok (t', s') →
      (∃ m' ∈ s'.vehicleModels, m'.id = m0.id ∧
        m'.bodyType = chosenBodyType patch curModel ∧
        m'.segment = chosenSegment patch curModel) ∧
      (patch.body_type = none → chosenBodyType patch curModel = curModel.bodyType) ∧
      (∀ bt, patch.body_type = some bt → bt ≠ "" →
        chosenBodyType patch curModel = toEnum bt) ∧
      (patch.segment = none → chosenSegment patch curModel = curModel.segment) ∧
      (∀ sg, patch.segment = some sg → sg ≠ "" →
        chosenSegment patch curModel = toEnum sg)) := by
  constructor
  · intro s row man m t s' hFindMan hFindMod hok
    unfold createFromCsvRow at hok
    cases hd : parseTripDate row.trip_date with
    | error e => rw [hd] at hok; simp at hok
    | ok tripDate =>
      rw [hd] at hok
      rw [upsertManufacturer_found hFindMan] at hok
      simp only [] at hok
      cases hval : bodyTypeValues.contains (toEnum row.body_type) &&
          segmentValues.contains (toEnum row.segment) with
      | false =>
        have he : upsertVehicleModelCreatePath s man.id row.model (toEnum row.body_type)
            (toEnum row.segment) =
            .error "Invalid enum value for VehicleModel bodyType or segment" := by
          unfold upsertVehicleModelCreatePath
          rw [hval]
          simp
        rw [he] at hok
        simp at hok
      | true =>
        rw [upsertVehicleModelCreatePath_found hval hFindMod] at hok
        simp only [] at hok
        cases hvar : upsertVehicleVariant s m.id row.battery_kwh row.range_km
            (toEnum row.charging_type) row.price_eur with
        | error err => rw [hvar] at hok; simp at hok
        | ok pr =>
          rcases pr with ⟨variant, sC⟩
          rw [hvar] at hok
          simp only [] at hok
          rcases horig : upsertLocation sC row.origin_city row.origin_country with ⟨origin, sD⟩
          rw [horig] at hok
          simp only [] at hok
          rcases hdest : upsertLocation sD row.destination_city row.destination_country
            with ⟨dest, sE⟩
          rw [hdest] at hok
          simp only [] at hok
          obtain ⟨-, f3mo, -, -, -, -, -, -⟩ := upsertVehicleVariant_frame hvar
          obtain ⟨-, f4mo, -, -, -, -, -, -⟩ := upsertLocation_frame horig
          obtain ⟨-, f5mo, -, -, -, -, -, -⟩ := upsertLocation_frame hdest
          cases hft : sE.trips.find? (tripIdentityMatch tripDate variant.id origin.id
              dest.id row.distance_km) with
          | some existing =>
            rw [hft] at hok
            cases hok
            rw [f5mo, f4mo, f3mo]
          | none =>
            rw [hft] at hok
            cases hok
            show sE.vehicleModels = s.vehicleModels
            rw [f5mo, f4mo, f3mo]
  · intro s id patch current curVariant curModel curManufacturer man m0 t' s' hT hCurV hCurM
      hCurMan htv hFindMan hFindMod hok
    have hdisc : (patch.body_type = none → chosenBodyType patch curModel = curModel.bodyType) ∧
        (∀ bt, patch.body_type = some bt → bt ≠ "" →
          chosenBodyType patch curModel = toEnum bt) ∧
        (patch.segment = none → chosenSegment patch curModel = curModel.segment) ∧
        (∀ sg, patch.segment = some sg → sg ≠ "" →
          chosenSegment patch curModel = toEnum sg) := by
      refine ⟨?_, ?_, ?_, ?_⟩
      · intro h; simp [chosenBodyType, h]
      · intro bt h hne
        simp [chosenBodyType, h, beq_eq_false_iff_ne.mpr hne]
      · intro h; simp [chosenSegment, h]
      · intro sg h hne
        simp [chosenSegment, h, beq_eq_false_iff_ne.mpr hne]
    refine ⟨?_, hdisc.1, hdisc.2.1, hdisc.2.2.1, hdisc.2.2.2⟩
    unfold updateTrip at hok
    rw [hT] at hok
    simp only [] at hok
    rw [hCurV] at hok
    simp only [Option.bind] at hok
    rw [hCurM] at hok
    simp only [Option.bind] at hok
    rw [hCurMan] at hok
    unfold vehiclePhase at hok
    rw [htv] at hok
    simp only [if_true] at hok
    rw [upsertManufacturer_found hFindMan] at hok
    simp only [] at hok
    cases hval : bodyTypeValues.contains (chosenBodyType patch curModel) &&
        segmentValues.contains (chosenSegment patch curModel) with
    | false =>
      have he : upsertVehicleModelUpdatePath s man.id (patch.model.getD curModel.name)
          (chosenBodyType patch curModel) (chosenSegment patch curModel) =
          .error "Invalid enum value for VehicleModel bodyType or segment" := by
        unfold upsertVehicleModelUpdatePath
        rw [hval]
        simp
      rw [he] at hok
      simp at hok
    | true =>
      rw [upsertVehicleModelUpdatePath_found hval hFindMod] at hok
      simp only [] at hok
      cases hvar : upsertVehicleVariant
          { s with vehicleModels := s.vehicleModels.map (fun x =>
              if modelKeyMatch man.id (patch.model.getD curModel.name) x then
                { x with bodyType := chosenBodyType patch curModel,
                         segment := chosenSegment patch curModel } else x) }
          m0.id (patch.battery_kwh.getD curVariant.batteryKwh)
          (patch.range_km.getD curVariant.rangeKm) (chosenChargingType patch curVariant)
          (patch.price_eur.getD curVariant.priceEur) with
      | error err => rw [hvar] at hok; simp at hok
      | ok pr =>
        rcases pr with ⟨variant, s3v⟩
        rw [hvar] at hok
        simp only [] at hok
        cases ho : locationPhase s3v patch.origin_city patch.origin_country
            (s.locations.find? (fun l => l.id == current.originId)) with
        | error es => rw [ho] at hok; simp at hok
        | ok pr2 =>
          rcases pr2 with ⟨no, s4v⟩
          rw [ho] at hok
          simp only [] at hok
          cases hd2 : locationPhase s4v patch.destination_city patch.destination_country
              (s.locations.find? (fun l => l.id == current.destinationId)) with
          | error es => rw [hd2] at hok; simp at hok
          | ok pr3 =>
            rcases pr3 with ⟨nd, s5v⟩
            rw [hd2] at hok
            simp only [] at hok
            cases hpd : parsePatchTripDate patch with
            | error e => rw [hpd] at hok; simp at hok
            | ok td =>
              rw [hpd] at hok
              simp only [] at hok
              cases hok
              obtain ⟨-, f3mo, -, -, -, -, -, -⟩ := upsertVehicleVariant_frame hvar
              obtain ⟨-, f4mo, -, -, -, -⟩ := locationPhase_frame ho
              obtain ⟨-, f5mo, -, -, -, -⟩ := locationPhase_frame hd2
              have hmm : ({ m0 with
                  bodyType := chosenBodyType patch curModel,
                  segment := chosenSegment patch curModel } : VehicleModel)
                  ∈ s5v.vehicleModels := by
                rw [f5mo, f4mo, f3mo]
                exact List.mem_map.mpr ⟨m0, List.mem_of_find?_eq_some hFindMod,
                  by rw [if_pos (List.find?_some hFindMod)]⟩
              exact ⟨_, hmm, rfl, rfl, rfl⟩

/-- Row identical to sampleRow but with a different body type. -/
def sedanRow : TripCreateDTO := { sampleRow with body_type := "Sedan" }

/-- Witness for the amended C8: creating sedanRow against the store that
already holds the iX3 model leaves the VehicleModel table unchanged (the
differing body type of the row is ignored), while the rename patch m2Patch
resolves the existing M2 row and overwrites its body type and segment with
the values backfilled from the old model, neither being supplied by the
patch. -/
theorem vehicleModel_overwrite_amended_witness :
    sampleStore.vehicleModels = sampleStore.vehicleModels ∧
    ((∃ m' ∈ c8After.vehicleModels,
        m'.id = (⟨2, 1, "M2", "SUV", "COMPACT"⟩ : VehicleModel).id ∧
        m'.bodyType = chosenBodyType m2Patch ⟨1, 1, "iX3", "CROSSOVER", "MID_SIZE"⟩ ∧
        m'.segment = chosenSegment m2Patch ⟨1, 1, "iX3", "CROSSOVER", "MID_SIZE"⟩) ∧
      (m2Patch.body_type = none →
        chosenBodyType m2Patch ⟨1, 1, "iX3", "CROSSOVER", "MID_SIZE"⟩
          = (⟨1, 1, "iX3", "CROSSOVER", "MID_SIZE"⟩ : VehicleModel).bodyType) ∧
      (∀ bt, m2Patch.body_type = some bt → bt ≠ "" →
        chosenBodyType m2Patch ⟨1, 1, "iX3", "CROSSOVER", "MID_SIZE"⟩ = toEnum bt) ∧
      (m2Patch.segment = none →
        chosenSegment m2Patch ⟨1, 1, "iX3", "CROSSOVER", "MID_SIZE"⟩
          = (⟨1, 1, "iX3", "CROSSOVER", "MID_SIZE"⟩ : VehicleModel).segment) ∧
      (∀ sg, m2Patch.segment = some sg → sg ≠ "" →
        chosenSegment m2Patch ⟨1, 1, "iX3", "CROSSOVER", "MID_SIZE"⟩ = toEnum sg)) :=
  ⟨vehicleModel_overwrite_amended.1 sampleStore sedanRow ⟨1, "BMW Group"⟩
      ⟨1, 1, "iX3", "CROSSOVER", "MID_SIZE"⟩ sampleTrip sampleStore rfl rfl rfl,
   vehicleModel_overwrite_amended.2 c8Store 1 m2Patch sampleTrip
      ⟨1, 1, 80, 463, "DC", 70157⟩ ⟨1, 1, "iX3", "CROSSOVER", "MID_SIZE"⟩
      ⟨1, "BMW Group"⟩ ⟨1, "BMW Group"⟩ ⟨2, 1, "M2", "SUV", "COMPACT"⟩
      c8Trip c8After rfl rfl rfl rfl rfl rfl rfl rfl⟩

/-- C7: Sparse patch semantics.  For any patch, any scalar trip field absent
from the patch keeps its current value after updateTrip (absence is never a
deletion); the origin link is recomputed only when origin_city or
origin_country is present, and when only one half is present the other half
is backfilled from the current origin row; destination behaves symmetrically
and independently.  The two id hypotheses state that the store uses the
nonzero ids produced by the SERIAL sequences. -/
theorem updateTrip_sparse_patch
    (s : Store) (id : Nat) (patch : TripUpdateDTO) (current : Trip) (t' : Trip) (s' : Store)
    (hLoc0 : ∀ l ∈ s.locations, l.id ≠ 0)
    (hnz0 : s.nextLocationId ≠ 0)
    (hT : s.trips.find? (fun x => x.id == id) = some current)
    (hok : updateTrip s id patch = .ok (t', s')) :
    (patch.distance_km = none → t'.distanceKm = current.distanceKm) ∧
    (patch.co2_g_per_km = none → t'.co2_g_per_km = current.co2_g_per_km) ∧
    (patch.grid_intensity_gco2_per_kwh = none →
      t'.grid_intensity_gco2_per_kwh = current.grid_intensity_gco2_per_kwh) ∧
    (patch.trip_date = none → t'.tripDate = current.tripDate) ∧
    (patch.origin_city = none ∧ patch.origin_country = none →
      t'.originId = current.originId) ∧
    (patch.destination_city = none ∧ patch.destination_country = none →
      t'.destinationId = current.destinationId) ∧
    (∀ c, patch.origin_city = some c → c ≠ "" → patch.origin_country = none →
      ∃ loc ∈ s'.locations, t'.originId = loc.id ∧ loc.city = c ∧
        ∀ curO, s.locations.find? (fun l => l.id == current.originId) = some curO →
          loc.country = curO.country) ∧
    (∀ k, patch.origin_country = some k → k ≠ "" → patch.origin_city = none →
      ∃ loc ∈ s'.locations, t'.originId = loc.id ∧ loc.country = k ∧
        ∀ curO, s.locations.find? (fun l => l.id == current.originId) = some curO →
          loc.city = curO.city) ∧
    (∀ c, patch.destination_city = some c → c ≠ "" → patch.destination_country = none →
      ∃ loc ∈ s'.locations, t'.destinationId = loc.id ∧ loc.city = c ∧
        ∀ curD, s.locations.find? (fun l => l.id == current.destinationId) = some curD →
          loc.country = curD.country) ∧
    (∀ k, patch.destination_country = some k → k ≠ "" → patch.destination_city = none →
      ∃ loc ∈ s'.locations, t'.destinationId = loc.id ∧ loc.country = k ∧
        ∀ curD, s.locations.find? (fun l => l.id == current.destinationId) = some curD →
          loc.city = curD.city) := by
  unfold updateTrip at hok
  rw [hT] at hok
  simp only [] at hok
  split at hok
  · simp at hok
  · rename_i nvv s1 heq1
    split at hok
    · simp at hok
    · rename_i no s2 heq2
      split at hok
      · simp at hok
      · rename_i nd s3 heq3
        split at hok
        · simp at hok
        · rename_i td heq4
          cases hok
          obtain ⟨f1l, -, f1nl, -⟩ := vehiclePhase_frame heq1
          have hs1loc : ∀ l ∈ s1.locations, l.id ≠ 0 := by rw [f1l]; exact hLoc0
          have hs1nz : s1.nextLocationId ≠ 0 := by rw [f1nl]; exact hnz0
          obtain ⟨-, -, -, -, ⟨tail2, hext2⟩, hnzp2⟩ := locationPhase_frame heq2
          obtain ⟨hs2loc, hs2nz⟩ := hnzp2 hs1loc hs1nz
          obtain ⟨-, -, -, -, ⟨tail3, hext3⟩, -⟩ := locationPhase_frame heq3
          refine ⟨?_, ?_, ?_, ?_, ?_, ?_, ?_, ?_, ?_, ?_⟩
          · intro h; simp [applyTripPatch, h]
          · intro h; simp [applyTripPatch, h]
          · intro h; simp [applyTripPatch, h]
          · intro h
            unfold parsePatchTripDate at heq4
            rw [h] at heq4
            cases heq4
            simp [applyTripPatch]
          · rintro ⟨h1, h2⟩
            have hskip := @locationPhase_not_touched s1 patch.origin_city patch.origin_country
              (s.locations.find? (fun l => l.id == current.originId))
              (by rw [h1, h2]; rfl)
            rw [heq2] at hskip
            simp at hskip
            obtain ⟨hno, -⟩ := hskip
            subst hno
            simp [applyTripPatch, isTruthyNat]
          · rintro ⟨h1, h2⟩
            have hskip := @locationPhase_not_touched s2 patch.destination_city
              patch.destination_country
              (s.locations.find? (fun l => l.id == current.destinationId))
              (by rw [h1, h2]; rfl)
            rw [heq3] at hskip
            simp at hskip
            obtain ⟨hnd, -⟩ := hskip
            subst hnd
            simp [applyTripPatch, isTruthyNat]
          · intro c hc hne hk
            have htr : (isTruthyStr patch.origin_city || isTruthyStr patch.origin_country)
                = true := by
              rw [hc]
              simp [isTruthyStr, hne]
            cases hfo : s.locations.find? (fun l => l.id == current.originId) with
            | none =>
              rw [hfo] at heq2
              unfold locationPhase at heq2
              rw [htr] at heq2
              simp at heq2
            | some curO =>
              rw [hfo] at heq2
              obtain ⟨loc, hmem2, hnoEq, hcity, hcountry, hsrc⟩ := locationPhase_hit htr heq2
              have hlz : loc.id ≠ 0 := by
                rcases hsrc with hin | hfresh
                · exact hs1loc loc hin
                · rw [hfresh]; exact hs1nz
              subst hnoEq
              refine ⟨loc, ?_, ?_, ?_, ?_⟩
              · show loc ∈ s3.locations
                rw [hext3]
                exact List.mem_append.mpr (Or.inl hmem2)
              · simp [applyTripPatch, isTruthyNat, beq_eq_false_iff_ne.mpr hlz]
              · rw [hc] at hcity
                simpa using hcity
              · intro curO2 hfind2
                injection hfind2 with h2
                subst h2
                rw [hk] at hcountry
                simpa using hcountry
          · intro k hk hne hc
            have htr : (isTruthyStr patch.origin_city || isTruthyStr patch.origin_country)
                = true := by
              rw [hk, hc]
              simp [isTruthyStr, hne]
            cases hfo : s.locations.find? (fun l => l.id == current.originId) with
            | none =>
              rw [hfo] at heq2
              unfold locationPhase at heq2
              rw [htr] at heq2
              simp at heq2
            | some curO =>
              rw [hfo] at heq2
              obtain ⟨loc, hmem2, hnoEq, hcity, hcountry, hsrc⟩ := locationPhase_hit htr heq2
              have hlz : loc.id ≠ 0 := by
                rcases hsrc with hin | hfresh
                · exact hs1loc loc hin
                · rw [hfresh]; exact hs1nz
              subst hnoEq
              refine ⟨loc, ?_, ?_, ?_, ?_⟩
              · show loc ∈ s3.locations
                rw [hext3]
                exact List.mem_append.mpr (Or.inl hmem2)
              · simp [applyTripPatch, isTruthyNat, beq_eq_false_iff_ne.mpr hlz]
              · rw [hk] at hcountry
                simpa using hcountry
              · intro curO2 hfind2
                injection hfind2 with h2
                subst h2
                rw [hc] at hcity
                simpa using hcity
          · intro c hc hne hk
            have htr : (isTruthyStr patch.destination_city ||
                isTruthyStr patch.destination_country) = true := by
              rw [hc]
              simp [isTruthyStr, hne]
            cases hfd : s.locations.find? (fun l => l.id == current.destinationId) with
            | none =>
              rw [hfd] at heq3
              unfold locationPhase at heq3
              rw [htr] at heq3
              simp at heq3
            | some curD =>
              rw [hfd] at heq3
              obtain ⟨loc, hmem3, hndEq, hcity, hcountry, hsrc⟩ := locationPhase_hit htr heq3
              have hlz : loc.id ≠ 0 := by
                rcases hsrc with hin | hfresh
                · exact hs2loc loc hin
                · rw [hfresh]; exact hs2nz
              subst hndEq
              refine ⟨loc, ?_, ?_, ?_, ?_⟩
              · show loc ∈ s3.locations
                exact hmem3
              · simp [applyTripPatch, isTruthyNat, beq_eq_false_iff_ne.mpr hlz]
              · rw [hc] at hcity
                simpa using hcity
              · intro curD2 hfind2
                injection hfind2 with h2
                subst h2
                rw [hk] at hcountry
                simpa using hcountry
          · intro k hk hne hc
            have htr : (isTruthyStr patch.destination_city ||
                isTruthyStr patch.destination_country) = true := by
              rw [hk, hc]
              simp [isTruthyStr, hne]
            cases hfd : s.locations.find? (fun l => l.id == current.destinationId) with
            | none =>
              rw [hfd] at heq3
              unfold locationPhase at heq3
              rw [htr] at heq3
              simp at heq3
            | some curD =>
              rw [hfd] at heq3
              obtain ⟨loc, hmem3, hndEq, hcity, hcountry, hsrc⟩ := locationPhase_hit htr heq3
              have hlz : loc.id ≠ 0 := by
                rcases hsrc with hin | hfresh
                · exact hs2loc loc hin
                · rw [hfresh]; exact hs2nz
              subst hndEq
              refine ⟨loc, ?_, ?_, ?_, ?_⟩
              · show loc ∈ s3.locations
                exact hmem3
              · simp [applyTripPatch, isTruthyNat, beq_eq_false_iff_ne.mpr hlz]
              · rw [hk] at hcountry
                simpa using hcountry
              · intro curD2 hfind2
                injection hfind2 with h2
                subst h2
                rw [hc] at hcity
                simpa using hcity

/-- Patch supplying only the origin city. -/
def bostonPatch : TripUpdateDTO := { origin_city := some "Boston" }

/-- Trip after relinking the origin to the new Boston location. -/
def bostonTrip : Trip := ⟨1, 1739145600000, 5813, 58, 350, 1, 3, 2⟩

/-- Store after applying bostonPatch to the sample trip: the Boston location
is created with the country backfilled from the current origin, everything
else untouched. -/
def bostonStore : Store :=
  { sampleStore with
      locations := [⟨1, "New York", "United States"⟩, ⟨2, "Casablanca", "Morocco"⟩,
        ⟨3, "Boston", "United States"⟩],
      trips := [bostonTrip],
      nextLocationId := 4 }

/-- Witness for C7: the sparse-patch theorem applied to the concrete
origin-city-only patch on the sample store; all absent fields keep their
values and the new origin location carries the backfilled country. -/
theorem updateTrip_sparse_patch_witness :
    (bostonPatch.distance_km = none → bostonTrip.distanceKm = sampleTrip.distanceKm) ∧
    (bostonPatch.co2_g_per_km = none → bostonTrip.co2_g_per_km = sampleTrip.co2_g_per_km) ∧
    (bostonPatch.grid_intensity_gco2_per_kwh = none →
      bostonTrip.grid_intensity_gco2_per_kwh = sampleTrip.grid_intensity_gco2_per_kwh) ∧
    (bostonPatch.trip_date = none → bostonTrip.tripDate = sampleTrip.tripDate) ∧
    (bostonPatch.origin_city = none ∧ bostonPatch.origin_country = none →
      bostonTrip.originId = sampleTrip.originId) ∧
    (bostonPatch.destination_city = none ∧ bostonPatch.destination_country = none →
      bostonTrip.destinationId = sampleTrip.destinationId) ∧
    (∀ c, bostonPatch.origin_city = some c → c ≠ "" → bostonPatch.origin_country = none →
      ∃ loc ∈ bostonStore.locations, bostonTrip.originId = loc.id ∧ loc.city = c ∧
        ∀ curO, sampleStore.locations.find? (fun l => l.id == sampleTrip.originId) = some curO →
          loc.country = curO.country) ∧
    (∀ k, bostonPatch.origin_country = some k → k ≠ "" → bostonPatch.origin_city = none →
      ∃ loc ∈ bostonStore.locations, bostonTrip.originId = loc.id ∧ loc.country = k ∧
        ∀ curO, sampleStore.locations.find? (fun l => l.id == sampleTrip.originId) = some curO →
          loc.city = curO.city) ∧
    (∀ c, bostonPatch.destination_city = some c → c ≠ "" →
      bostonPatch.destination_country = none →
      ∃ loc ∈ bostonStore.locations, bostonTrip.destinationId = loc.id ∧ loc.city = c ∧
        ∀ curD, sampleStore.locations.find?
            (fun l => l.id == sampleTrip.destinationId) = some curD →
          loc.country = curD.country) ∧
    (∀ k, bostonPatch.destination_country = some k → k ≠ "" →
      bostonPatch.destination_city = none →
      ∃ loc ∈ bostonStore.locations, bostonTrip.destinationId = loc.id ∧ loc.country = k ∧
        ∀ curD, sampleStore.locations.find?
            (fun l => l.id == sampleTrip.destinationId) = some curD →
          loc.city = curD.city) :=
  updateTrip_sparse_patch sampleStore 1 bostonPatch sampleTrip bostonTrip bostonStore
    (by decide) (by decide) rfl rfl
